import Mathlib

/-!
Verification development for the serverless expense-approval workflow.

The definitions below are a shallow embedding of the repository's core:

* `validate` / `validateHandler`   — src/handlers/validateExpense (ValidateExpense)
* `checkPolicy` / `policyHandler`  — src/handlers/policyCheck.ts
* `analyzeFraudRisk` / `fraudHandler` — src/handlers/fraudHeuristic.ts
* `makeDecision` / `decisionHandler`  — src/handlers/decision.ts
* `generateExpenseId`              — src/utils/idgen.ts
* `storeExpenseDecision`, `getExpensesByEmployee`, `updateExpenseStatus`
                                   — src/utils/dynamo.ts (in-memory branch)
* `handleManualDecision`           — src/handlers/manualDecision.ts
* `withRetry` / `runWorkflow`      — src/local/server.ts

Modelling conventions:

* Monetary amounts are integers in mills (thousandths of a currency
  unit): every decimal constant the source compares amounts against has at
  most three decimal places, so the scaling is exact, and every comparison
  the code performs (`>`, `<=`, absolute-difference tolerances) is
  preserved verbatim under it.
* JavaScript strings are Lean `String`s; `toLowerCase`, `trim` and
  substring containment are modelled over the character list (`String.data`)
  for ASCII data, which is what the system produces and consumes.
* Timestamps (`new Date().toISOString()`) are passed in as an explicit
  `now : String` argument; no claim depends on their value.
* The workflow event is a single object that the step handlers mutate in
  place in the source; the embedding threads its current value through the
  pipeline, so the compensation path sees exactly the attachments that had
  been added before the fault, as the source does.
* Transient step faults (the chaos injection in the fraud handler throws
  before any result is attached) are modelled by per-step fault schedules
  `Nat → Option String`: `some e` means attempt `i` throws `e` before
  attaching anything, `none` means it completes normally.
* The store is the in-memory `Map` branch of src/utils/dynamo.ts, as an
  insertion-ordered association list.
-/

namespace ExpenseApproval

/-- Risk levels produced by the fraud heuristic (models/expense.ts). -/
inductive RiskLevel where
  | LOW
  | MEDIUM
  | HIGH
deriving DecidableEq

/-- Decision outcomes rendered by the workflow (models/expense.ts). -/
inductive DecisionOutcome where
  | APPROVED
  | REJECTED
  | NEEDS_MANUAL_REVIEW
  | FAILED_PROCESSING
deriving DecidableEq

/-- `ValidationResult` from models/expense.ts. -/
structure ValidationResult where
  passed : Bool
  errors : List String
  validatedAt : String
deriving DecidableEq

/-- `PolicyCheckResult` from models/expense.ts. -/
structure PolicyCheckResult where
  passed : Bool
  violations : List String
  checkedAt : String
deriving DecidableEq

/-- `FraudCheckResult` from models/expense.ts. -/
structure FraudCheckResult where
  riskScore : Nat
  riskLevel : RiskLevel
  riskFlags : List String
  analyzedAt : String
deriving DecidableEq

/-- `DecisionResult` from models/expense.ts; `manualOverride` and
`reviewedBy` are optional fields. -/
structure DecisionResult where
  outcome : DecisionOutcome
  reasons : List String
  decidedAt : String
  manualOverride : Option Bool := none
  reviewedBy : Option String := none
deriving DecidableEq

/-- Error payload attached by the workflow catch path (models/expense.ts,
`WorkflowError` with fields `Error` and `Cause`). -/
structure WorkflowError where
  errName : String
  cause : String
deriving DecidableEq

/-- The expense event flowing through the workflow (models/expense.ts).
Fields that the submission boundary always populates are total; optional
attachments are `Option`s, `none` modelling an absent (undefined) field. -/
structure ExpenseEvent where
  expenseId : String
  employeeId : String
  amount : ℤ
  category : String
  description : String
  receiptProvided : Bool
  submittedAt : String
  validation : Option ValidationResult := none
  policyCheck : Option PolicyCheckResult := none
  fraudCheck : Option FraudCheckResult := none
  decision : Option DecisionResult := none
  status : Option String := none
  updatedAt : Option String := none
  storageError : Option String := none
  error : Option WorkflowError := none
deriving DecidableEq

/-- The string form of an outcome, as assigned to `expense.status`. -/
def outcomeToString : DecisionOutcome → String
  | .APPROVED => "APPROVED"
  | .REJECTED => "REJECTED"
  | .NEEDS_MANUAL_REVIEW => "NEEDS_MANUAL_REVIEW"
  | .FAILED_PROCESSING => "FAILED_PROCESSING"

/-- The string form of a risk level, as interpolated into reasons. -/
def riskLevelToString : RiskLevel → String
  | .LOW => "LOW"
  | .MEDIUM => "MEDIUM"
  | .HIGH => "HIGH"

/-! ### String helpers modelling the JavaScript primitives used -/

/-- A single-quote character, used in interpolated violation messages. -/
def sq : String := ⟨[Char.ofNat 39]⟩

/-- Models `String.prototype.toLowerCase` on ASCII data. -/
def lowerStr (s : String) : String := ⟨s.data.map Char.toLower⟩

/-- Models `String.prototype.toUpperCase` on ASCII data. -/
def upperStr (s : String) : String := ⟨s.data.map Char.toUpper⟩

/-- Models `String.prototype.trim` (whitespace stripped from both ends). -/
def trimStr (s : String) : String :=
  ⟨((s.data.dropWhile Char.isWhitespace).reverse.dropWhile Char.isWhitespace).reverse⟩

/-- `pat` occurs as a contiguous run inside `s` (list form). -/
def listContainsSub (s pat : List Char) : Bool :=
  (List.range (s.length + 1)).any fun i => (s.drop i).take pat.length == pat

/-- Models `String.prototype.includes`. -/
def strContainsSub (s pat : String) : Bool :=
  listContainsSub s.data pat.data

/-- Models `Math.abs` on the integer amount scale. -/
def absInt (i : ℤ) : ℤ := if i < 0 then -i else i

/-- Models `Number.prototype.toFixed(2)` on a mills-scaled amount: the
amount rounded to cents, rendered with two decimal places. -/
def toFixed2 (mills : ℤ) : String :=
  let cents := ((absInt mills).toNat + 5) / 10
  let whole := cents / 100
  let frac := cents % 100
  let fracStr := if frac < 10 then "0" ++ toString frac else toString frac
  (if mills < 0 then "-" else "") ++ toString whole ++ "." ++ fracStr

/-! ### Validation (ValidateExpense handler) -/

/-- `ALLOWED_CATEGORIES` from models/expense.ts. -/
def ALLOWED_CATEGORIES : List String :=
  ["travel", "meals", "accommodation", "office_supplies", "software",
   "training", "client_entertainment", "transportation", "miscellaneous"]

/-- `MAX_EXPENSE_AMOUNT` from the ValidateExpense handler. -/
def MAX_EXPENSE_AMOUNT : ℤ := 10000 * 1000

/-- `validate` from the ValidateExpense handler, over a workflow input
whose required fields are present and well-typed (the submission boundary
constructs the event with all of them populated, so the missing-field
short-circuit and the runtime type checks cannot fire on this path; the
remaining range and membership checks are translated in source order). -/
def validate (e : ExpenseEvent) : List String :=
  let errs0 : List String := []
  let errs1 :=
    if (trimStr e.employeeId).length = 0 then
      errs0 ++ ["employeeId must be a non-empty string"]
    else errs0
  let errs2 :=
    if e.amount ≤ 0 then
      errs1 ++ ["amount must be greater than zero"]
    else if e.amount > MAX_EXPENSE_AMOUNT then
      errs1 ++ ["amount exceeds maximum allowed (10000)"]
    else errs1
  let errs3 :=
    if ALLOWED_CATEGORIES.contains e.category then errs2
    else
      errs2 ++ ["Invalid category " ++ sq ++ e.category ++ sq ++ ". Allowed: " ++
        String.intercalate ", " ALLOWED_CATEGORIES]
  let errs4 :=
    if (trimStr e.description).length < 3 then
      errs3 ++ ["description must be at least 3 characters"]
    else errs3
  errs4

/-- The ValidateExpense Lambda handler: attaches the validation result. -/
def validateHandler (now : String) (e : ExpenseEvent) : ExpenseEvent :=
  { e with validation := some ⟨(validate e).isEmpty, validate e, now⟩ }

/-! ### Policy check (policyCheck.ts) -/

/-- `CATEGORY_LIMITS` from policyCheck.ts. -/
def CATEGORY_LIMITS : List (String × ℤ) :=
  [("travel", 2000 * 1000), ("meals", 75 * 1000), ("accommodation", 500 * 1000),
   ("office_supplies", 200 * 1000), ("software", 500 * 1000),
   ("training", 1500 * 1000), ("client_entertainment", 300 * 1000),
   ("transportation", 150 * 1000), ("miscellaneous", 100 * 1000)]

/-- `RECEIPT_REQUIRED_THRESHOLD` from policyCheck.ts. -/
def RECEIPT_REQUIRED_THRESHOLD : ℤ := 25 * 1000

/-- `HIGH_SCRUTINY_CATEGORIES` from policyCheck.ts. -/
def HIGH_SCRUTINY_CATEGORIES : List (String × ℤ) :=
  [("client_entertainment", 150 * 1000), ("miscellaneous", 50 * 1000),
   ("meals", 50 * 1000)]

/-- `checkPolicy` from policyCheck.ts: all three rules evaluated, in
source order, each appending its violation string. -/
def checkPolicy (amount : ℤ) (category : String) (receiptProvided : Bool) :
    List String :=
  let v0 : List String := []
  let v1 :=
    match CATEGORY_LIMITS.lookup category with
    | some limit =>
        if amount > limit then
          v0 ++ ["Amount $" ++ toFixed2 amount ++ " exceeds " ++ category ++
            " limit of $" ++ toFixed2 limit]
        else v0
    | none => v0
  let v2 :=
    if amount > RECEIPT_REQUIRED_THRESHOLD && !receiptProvided then
      v1 ++ ["Receipt required for expenses over $" ++
        toFixed2 RECEIPT_REQUIRED_THRESHOLD]
    else v1
  let v3 :=
    match HIGH_SCRUTINY_CATEGORIES.lookup category with
    | some t =>
        if amount > t then
          v2 ++ ["Category " ++ sq ++ category ++ sq ++
            " requires additional review for amounts over $" ++ toFixed2 t]
        else v2
    | none => v2
  v3

/-- The PolicyCheck Lambda handler: attaches the policy result. -/
def policyHandler (now : String) (e : ExpenseEvent) : ExpenseEvent :=
  let violations := checkPolicy e.amount e.category e.receiptProvided
  { e with policyCheck := some ⟨violations.isEmpty, violations, now⟩ }

/-! ### Fraud heuristic (fraudHeuristic.ts) -/

/-- `RISK_THRESHOLD_LOW` from fraudHeuristic.ts. -/
def RISK_THRESHOLD_LOW : Nat := 30

/-- `RISK_THRESHOLD_MEDIUM` from fraudHeuristic.ts. -/
def RISK_THRESHOLD_MEDIUM : Nat := 60

/-- `ROUND_AMOUNTS` from fraudHeuristic.ts. -/
def ROUND_AMOUNTS : List ℤ :=
  [50 * 1000, 100 * 1000, 200 * 1000, 250 * 1000, 500 * 1000, 750 * 1000,
   1000 * 1000, 1500 * 1000, 2000 * 1000, 5000 * 1000]

/-- `ROUND_AMOUNT_TOLERANCE` from fraudHeuristic.ts. -/
def ROUND_AMOUNT_TOLERANCE : ℤ := 1

/-- `THRESHOLD_AMOUNTS` from fraudHeuristic.ts, in insertion order. -/
def THRESHOLD_AMOUNTS : List (ℤ × String) :=
  [(24990, "Just below receipt threshold ($25)"),
   (74990, "Just below meals limit ($75)"),
   (99990, "Just below miscellaneous limit ($100)"),
   (149990, "Just below transportation limit ($150)"),
   (499990, "Just below software/accommodation limit ($500)")]

/-- `THRESHOLD_TOLERANCE` from fraudHeuristic.ts. -/
def THRESHOLD_TOLERANCE : ℤ := 1 * 1000

/-- `SUSPICIOUS_KEYWORDS` from fraudHeuristic.ts. -/
def SUSPICIOUS_KEYWORDS : List String :=
  ["test", "asdf", "xxx", "fake", "dummy", "n/a", "none", "misc"]

/-- `GENERIC_PATTERNS` from fraudHeuristic.ts: each regex is a full-string,
case-insensitive match of one word, applied to the already lower-cased
trimmed description, hence equality with that word. -/
def GENERIC_PATTERN_WORDS : List String :=
  ["expense", "claim", "reimbursement", "business", "work"]

/-- `CATEGORY_NORMS` from fraudHeuristic.ts. -/
def CATEGORY_NORMS : List (String × ℤ) :=
  [("meals", 50 * 1000), ("transportation", 75 * 1000),
   ("office_supplies", 100 * 1000)]

/-- Rule 1 of `analyzeFraudRisk`: suspiciously round amount (+15, first
matching curated value only). -/
def fraudRound (amount : ℤ) (acc : Nat × List String) : Nat × List String :=
  match ROUND_AMOUNTS.find? fun r => decide (absInt (amount - r) < ROUND_AMOUNT_TOLERANCE) with
  | some _ => (acc.1 + 15, acc.2 ++ ["Suspiciously round amount: $" ++ toFixed2 amount])
  | none => acc

/-- Rule 2: threshold gaming (+25, first matching threshold only). -/
def fraudThreshold (amount : ℤ) (acc : Nat × List String) : Nat × List String :=
  match THRESHOLD_AMOUNTS.find? fun p =>
      decide (absInt (amount - p.1) < THRESHOLD_TOLERANCE) && decide (amount ≤ p.1) with
  | some p => (acc.1 + 25, acc.2 ++ ["Threshold gaming detected: " ++ p.2])
  | none => acc

/-- Rule 3: suspicious keyword in the folded description (+20, first
matching keyword only). -/
def fraudKeyword (description : String) (acc : Nat × List String) :
    Nat × List String :=
  match SUSPICIOUS_KEYWORDS.find? fun k => strContainsSub description k with
  | some k =>
      (acc.1 + 20, acc.2 ++ ["Suspicious keyword in description: " ++ sq ++ k ++ sq])
  | none => acc

/-- Rule 4: very short (+15) or, failing that, generic (+15) description
(mutually exclusive, short-circuiting on the length check). -/
def fraudDescQuality (description : String) (acc : Nat × List String) :
    Nat × List String :=
  if description.length < 10 then
    (acc.1 + 15, acc.2 ++ ["Description is suspiciously short"])
  else
    match GENERIC_PATTERN_WORDS.find? fun w => description == w with
    | some _ => (acc.1 + 15, acc.2 ++ ["Description appears generic"])
    | none => acc

/-- Rule 5: high amount without receipt (+20). -/
def fraudNoReceipt (amount : ℤ) (receiptProvided : Bool)
    (acc : Nat × List String) : Nat × List String :=
  if decide (amount > 100 * 1000) && !receiptProvided then
    (acc.1 + 20, acc.2 ++ ["High amount submitted without receipt"])
  else acc

/-- Rule 6: amount far above the category's typical spend (+10). -/
def fraudNorm (amount : ℤ) (category : String) (acc : Nat × List String) :
    Nat × List String :=
  match CATEGORY_NORMS.lookup category with
  | some norm =>
      if amount > norm * 2 then
        (acc.1 + 10, acc.2 ++ ["Amount is significantly above typical " ++ category ++
          " expense (norm ~$" ++ toFixed2 norm ++ ")"])
      else acc
  | none => acc

/-- `analyzeFraudRisk` from fraudHeuristic.ts: the six rule blocks applied
in source order to the `(riskScore, riskFlags)` accumulator, then the
final `Math.min(riskScore, 100)` clamp. -/
def analyzeFraudRisk (e : ExpenseEvent) : Nat × List String :=
  let amount := e.amount
  let description := trimStr (lowerStr e.description)
  let acc := fraudNorm amount e.category
    (fraudNoReceipt amount e.receiptProvided
      (fraudDescQuality description
        (fraudKeyword description
          (fraudThreshold amount
            (fraudRound amount (0, []))))))
  (min acc.1 100, acc.2)

/-- The risk level computed from the score in the FraudHeuristic handler. -/
def riskLevelOf (score : Nat) : RiskLevel :=
  if score ≥ RISK_THRESHOLD_MEDIUM then .HIGH
  else if score ≥ RISK_THRESHOLD_LOW then .MEDIUM
  else .LOW

/-- The FraudHeuristic Lambda handler on a completed (non-throwing)
invocation: attaches the fraud result. The chaos injection throws before
this attachment; in the workflow model a throwing attempt is a fault
schedule entry and leaves the event untouched, as in the source. -/
def fraudHandler (now : String) (e : ExpenseEvent) : ExpenseEvent :=
  let a := analyzeFraudRisk e
  { e with fraudCheck := some ⟨a.1, riskLevelOf a.1, a.2, now⟩ }

/-! ### Decision aggregator (decision.ts, `makeDecision`) -/

/-- The default validation block `makeDecision` substitutes for an absent
result (only `passed` and `errors` are ever read from it). -/
def defaultValidation : ValidationResult := ⟨false, [], ""⟩

/-- The default policy block substituted for an absent result. -/
def defaultPolicyCheck : PolicyCheckResult := ⟨true, [], ""⟩

/-- The default fraud block substituted for an absent result. -/
def defaultFraudCheck : FraudCheckResult := ⟨0, .LOW, [], ""⟩

/-- `makeDecision` from decision.ts: the priority-ordered, first-match-wins
decision matrix, returning the outcome and the accumulated reasons. -/
def makeDecision (e : ExpenseEvent) : DecisionOutcome × List String :=
  match e.error with
  | some werr =>
      (.FAILED_PROCESSING,
       ["Workflow execution error: " ++ werr.errName,
        if werr.cause = "" then "Unknown cause" else werr.cause])
  | none =>
      let validation := e.validation.getD defaultValidation
      let policyCheck := e.policyCheck.getD defaultPolicyCheck
      let fraudCheck := e.fraudCheck.getD defaultFraudCheck
      if !validation.passed then
        (.REJECTED, "Expense failed validation checks" :: validation.errors)
      else if policyCheck.violations.any (fun v => strContainsSub (lowerStr v) "exceeds") then
        (.REJECTED, "Expense exceeds category spending limit" :: policyCheck.violations)
      else
        let policyReview := !policyCheck.passed
        let fraudReview :=
          fraudCheck.riskLevel = RiskLevel.MEDIUM ∨ fraudCheck.riskLevel = RiskLevel.HIGH
        let reasons :=
          (if policyReview then
            "Policy violations require manual review" :: policyCheck.violations
          else []) ++
          (if fraudReview then
            ("Fraud risk level: " ++ riskLevelToString fraudCheck.riskLevel ++
              " (score: " ++ toString fraudCheck.riskScore ++ ")") :: fraudCheck.riskFlags
          else [])
        if policyReview ∨ fraudReview then (.NEEDS_MANUAL_REVIEW, reasons)
        else (.APPROVED, ["All validation, policy, and fraud checks passed"])

/-! ### Idempotent store (dynamo.ts, in-memory branch) -/

/-- The in-memory store: an insertion-ordered map keyed by expense id. -/
abbrev Store := List (String × ExpenseEvent)

/-- `storeExpenseDecision` (dynamo.ts): the conditional insert.  Returns
`true` and the extended store when the id was absent; returns `false` and
the unchanged store when a record with the same id already exists. -/
def storeExpenseDecision (st : Store) (r : ExpenseEvent) : Bool × Store :=
  if (st.lookup r.expenseId).isSome then (false, st)
  else (true, st ++ [(r.expenseId, r)])

/-- `getExpense` (dynamo.ts): point lookup by id. -/
def getExpense (st : Store) (expenseId : String) : Option ExpenseEvent :=
  st.lookup expenseId

/-- The update fields the manual-decision path passes to
`updateExpenseStatus` (a `Partial<ExpenseEvent>` with these keys). -/
structure UpdateFields where
  status : Option String := none
  decision : Option DecisionResult := none
deriving DecidableEq

/-- Spread-merge of the update fields into an existing record
(`\x7b ...existing, ...updates \x7d`: a key present in the updates wins). -/
def applyUpdates (e : ExpenseEvent) (u : UpdateFields) : ExpenseEvent :=
  { e with
    status := match u.status with | some s => some s | none => e.status,
    decision := match u.decision with | some d => some d | none => e.decision }

/-- Replace the binding of `id` in place, preserving insertion order
(models `Map.set` on an existing key). -/
def storeSet (st : Store) (id : String) (v : ExpenseEvent) : Store :=
  st.map fun p => if p.1 = id then (id, v) else p

/-- `updateExpenseStatus` (dynamo.ts): merge-update that stamps
`updatedAt`; returns the updated record, or `none` when the id is absent
(the store is then unchanged). -/
def updateExpenseStatus (st : Store) (expenseId : String) (u : UpdateFields)
    (now : String) : Option ExpenseEvent × Store :=
  match st.lookup expenseId with
  | none => (none, st)
  | some existing =>
      let updated := { applyUpdates existing u with updatedAt := some now }
      (some updated, storeSet st expenseId updated)

/-! ### Pagination (dynamo.ts, `getExpensesByEmployee`, in-memory branch) -/

/-- The owner's records, filtered from the store values and sorted by
submission time descending (`sort((a, b) =>
b.submittedAt.localeCompare(a.submittedAt))` on ASCII ISO timestamps). -/
def ownerRecordsSorted (st : Store) (employeeId : String) : List ExpenseEvent :=
  ((st.map Prod.snd).filter fun e => e.employeeId == employeeId).mergeSort
    fun a b => decide (b.submittedAt ≤ a.submittedAt)

/-- One page starting at `startIdx`: `all.slice(startIdx, startIdx +
pageSize)`, and the next cursor exactly when `startIdx + pageSize <
all.length`. -/
def pageQuery (all : List ExpenseEvent) (pageSize startIdx : Nat) :
    List ExpenseEvent × Option Nat :=
  ((all.drop startIdx).take pageSize,
   if startIdx + pageSize < all.length then some (startIdx + pageSize) else none)

/-- `getExpensesByEmployee` (dynamo.ts, in-memory branch): the cursor is
the numeric start index round-tripped as an opaque token (`none` on the
first call reads from index 0). -/
def getExpensesByEmployee (st : Store) (pageSize : Nat) (employeeId : String)
    (nextToken : Option Nat) : List ExpenseEvent × Option Nat :=
  pageQuery (ownerRecordsSorted st employeeId) pageSize (nextToken.getD 0)

/-- Drive `getExpensesByEmployee` from a start index, repeatedly passing
the returned cursor back, concatenating the pages; `fuel` bounds the
recursion (any fuel past the record count is enough). -/
def collectPages (all : List ExpenseEvent) (pageSize : Nat) :
    Nat → Nat → List ExpenseEvent
  | 0, _ => []
  | fuel + 1, startIdx =>
      let pq := pageQuery all pageSize startIdx
      match pq.2 with
      | none => pq.1
      | some nxt => pq.1 ++ collectPages all pageSize fuel nxt

/-! ### Deterministic identity (idgen.ts) -/

/-- `generateExpenseId` (idgen.ts): the identity is derived from the raw
string `employeeId|amount|category|description|dateKey` by a fixed hex
digest truncated to 12 characters and upper-cased.  The digest
(`sha256 hex`) is an arbitrary fixed function parameter: every property
proved holds for any choice of it. -/
def generateExpenseId (sha256hex : String → String) (employeeId : String)
    (amount : ℤ) (category description dateKey : String) : String :=
  let raw := employeeId ++ "|" ++ toString amount ++ "|" ++ category ++ "|" ++
    description ++ "|" ++ dateKey
  let hash := upperStr ((sha256hex raw).take 12)
  "EXP-" ++ hash

/-! ### Decision Lambda handler (decision.ts, persistence part) -/

/-- The decision-rendering part of the Decision Lambda handler on a single
(non-array) event: stamps `decision`, `status` and `updatedAt` from
`makeDecision`. -/
def decideAndStamp (now : String) (e : ExpenseEvent) : ExpenseEvent :=
  let d := makeDecision e
  { e with
    decision := some ⟨d.1, d.2, now, none, none⟩,
    status := some (outcomeToString d.1),
    updatedAt := some now }

/-- The Decision Lambda handler: renders and stamps the decision, then
attempts the conditional insert.  `storageFault = some msg` models the
store call throwing (`String(err) = msg`); the handler then only annotates
the record with `storageError` and still returns it. -/
def decisionHandler (storageFault : Option String) (now : String)
    (e : ExpenseEvent) (st : Store) : ExpenseEvent × Store :=
  match storageFault with
  | some msg => ({ decideAndStamp now e with storageError := some msg }, st)
  | none => (decideAndStamp now e, (storeExpenseDecision st (decideAndStamp now e)).2)

/-! ### Manual decision (manualDecision.ts) -/

/-- `REVIEWABLE_STATUSES` from manualDecision.ts. -/
def REVIEWABLE_STATUSES : List String := ["NEEDS_MANUAL_REVIEW", "PENDING_REVIEW"]

/-- `ManualDecisionRequest` (models/expense.ts); `decision` is kept as a
raw string because the handler validates it at runtime. -/
structure ManualDecisionRequest where
  decision : String
  reason : String
  reviewedBy : Option String := none
deriving DecidableEq

/-- The explicit result shape of `handleManualDecision`. -/
structure ManualDecisionResult where
  success : Bool
  expense : Option ExpenseEvent := none
  error : Option String := none
deriving DecidableEq

/-- `handleManualDecision` (manualDecision.ts): request validation, point
lookup, reviewable-state check, then the merge-update; every failure is an
explicit result that leaves the store unchanged. -/
def handleManualDecision (st : Store) (expenseId : String)
    (req : ManualDecisionRequest) (now : String) :
    ManualDecisionResult × Store :=
  if ¬ (req.decision = "APPROVED" ∨ req.decision = "REJECTED") then
    ({ success := false, error := some "decision must be APPROVED or REJECTED" }, st)
  else if (trimStr req.reason).length < 3 then
    ({ success := false, error := some "reason must be at least 3 characters" }, st)
  else
    match st.lookup expenseId with
    | none =>
        ({ success := false,
           error := some ("Expense " ++ expenseId ++ " not found") }, st)
    | some expense =>
        if ¬ REVIEWABLE_STATUSES.contains (expense.status.getD "") then
          ({ success := false,
             error := some ("Expense " ++ expenseId ++
               " is not pending review (current status: " ++
               expense.status.getD "undefined" ++ ")") }, st)
        else
          let outcome : DecisionOutcome :=
            if req.decision = "APPROVED" then .APPROVED else .REJECTED
          let reviewer :=
            match req.reviewedBy with
            | some r => if trimStr r = "" then "unknown" else trimStr r
            | none => "unknown"
          let upd : UpdateFields :=
            { status := some req.decision,
              decision := some
                { outcome := outcome, reasons := [trimStr req.reason],
                  decidedAt := now, manualOverride := some true,
                  reviewedBy := some reviewer } }
          match updateExpenseStatus st expenseId upd now with
          | (none, st1) =>
              ({ success := false, error := some "Failed to update expense record" }, st1)
          | (some updated, st1) =>
              ({ success := true, expense := some updated }, st1)

/-! ### Local workflow runner (server.ts) -/

/-- `withRetry` (server.ts) over a fallible step: attempt `i` (0-based) is
`fn i`; the first success is returned, and once the configured attempts
are exhausted the last error is rethrown.  The second component counts how
many times the step was invoked. -/
def withRetryAux {α : Type} (fn : Nat → Except String α) (lastError : String) :
    Nat → Nat → Except String α × Nat
  | 0, calls => (.error lastError, calls)
  | k + 1, calls =>
      match fn calls with
      | .ok a => (.ok a, calls + 1)
      | .error e => withRetryAux fn e k (calls + 1)

/-- `withRetry fn maxAttempts`: see `withRetryAux`. -/
def withRetry {α : Type} (fn : Nat → Except String α) (maxAttempts : Nat) :
    Except String α × Nat :=
  withRetryAux fn "undefined" maxAttempts 0

/-- The observable outcome of one workflow run: the event returned to the
caller, the final store, and how many times the retried steps were
invoked. -/
structure RunResult where
  result : ExpenseEvent
  store : Store
  policyCalls : Nat
  fraudCalls : Nat
deriving DecidableEq

/-- `runWorkflow` (server.ts).  The step handlers mutate one shared event
object in the source, so the value threaded here is always the current
state of that object; in particular the catch path attaches the wrapped
error to the event as already mutated by the steps that completed before
the fault.  `policyFault i / fraudFault i = some e` makes attempt `i` of
that step throw `e` (before attaching its result, as the chaos injection
does); `String(err)` on an `Error` renders as `"Error: " ++ e`. -/
def runWorkflow (workflowVersion : String)
    (policyFault fraudFault : Nat → Option String)
    (storageFault : Option String) (now : String)
    (input : ExpenseEvent) (st : Store) : RunResult :=
  let ev1 := validateHandler now input
  if ¬ ((ev1.validation.map ValidationResult.passed).getD false) then
    let r := decisionHandler storageFault now ev1 st
    ⟨r.1, r.2, 0, 0⟩
  else
    match withRetry (fun i =>
        match policyFault i with
        | some e => .error e
        | none => .ok (policyHandler now ev1)) 2 with
    | (.error e, pCalls) =>
        let evErr := { ev1 with
          error := some ⟨"WorkflowExecutionError", "Error: " ++ e⟩ }
        let r := decisionHandler storageFault now evErr st
        ⟨r.1, r.2, pCalls, 0⟩
    | (.ok ev2, pCalls) =>
        match withRetry (fun i =>
            match fraudFault i with
            | some e => .error e
            | none => .ok (fraudHandler now ev2)) 3 with
        | (.error e, fCalls) =>
            let evErr := { ev2 with
              error := some ⟨"WorkflowExecutionError", "Error: " ++ e⟩ }
            let r := decisionHandler storageFault now evErr st
            ⟨r.1, r.2, pCalls, fCalls⟩
        | (.ok ev3, fCalls) =>
            let r := decisionHandler storageFault now ev3 st
            if workflowVersion = "V2" ∧ r.1.status = some "NEEDS_MANUAL_REVIEW" then
              let u := updateExpenseStatus r.2 r.1.expenseId
                { status := some "PENDING_REVIEW" } now
              ⟨{ r.1 with status := some "PENDING_REVIEW" }, u.2, pCalls, fCalls⟩
            else ⟨r.1, r.2, pCalls, fCalls⟩

/-! ### Concrete claims, stores, and runs used by the witnesses -/

/-- The contribution of one triggered rule to the score: its point value
when its predicate matched, zero otherwise. -/
def fraudContribSum (e : ExpenseEvent) : Nat :=
  (if (ROUND_AMOUNTS.find? fun r =>
      decide (absInt (e.amount - r) < ROUND_AMOUNT_TOLERANCE)).isSome then 15 else 0) +
  (if (THRESHOLD_AMOUNTS.find? fun p =>
      decide (absInt (e.amount - p.1) < THRESHOLD_TOLERANCE) &&
        decide (e.amount ≤ p.1)).isSome then 25 else 0) +
  (if (SUSPICIOUS_KEYWORDS.find? fun k =>
      strContainsSub (trimStr (lowerStr e.description)) k).isSome then 20 else 0) +
  (if (trimStr (lowerStr e.description)).length < 10 then 15
   else if (GENERIC_PATTERN_WORDS.find? fun w =>
      trimStr (lowerStr e.description) == w).isSome then 15 else 0) +
  (if decide (e.amount > 100 * 1000) && !e.receiptProvided then 20 else 0) +
  (match CATEGORY_NORMS.lookup e.category with
   | some norm => if e.amount > norm * 2 then 10 else 0
   | none => 0)
/-- Iterate the conditional insert over a sequence of submissions,
counting the successful writes. -/
def runInserts (st : Store) : List ExpenseEvent → Store × Nat
  | [] => (st, 0)
  | r :: rs =>
      let p := storeExpenseDecision st r
      let q := runInserts p.2 rs
      (q.1, (if p.1 then 1 else 0) + q.2)
/-- A valid, fresh claim: passes every validation check. -/
def okClaim : ExpenseEvent :=
  { expenseId := "EXP-OK", employeeId := "EMP-1", amount := 45 * 1000,
    category := "meals", description := "Team lunch at downtown restaurant",
    receiptProvided := true, submittedAt := "2026-02-08T10:00:00Z" }
/-- An invalid, fresh claim: its description is too short. -/
def badClaim : ExpenseEvent :=
  { okClaim with expenseId := "EXP-BAD", description := "x" }
/-- A claim whose validation failed but whose attached policy and fraud
results would on their own trigger rejection or review. -/
def c1Event : ExpenseEvent :=
  { expenseId := "EXP-C1", employeeId := "EMP-1", amount := 200 * 1000,
    category := "meals", description := "Team lunch at downtown restaurant",
    receiptProvided := false, submittedAt := "2026-02-08T10:00:00Z",
    validation := some ⟨false, ["amount exceeds maximum allowed (10000)"], "T"⟩,
    policyCheck := some ⟨false, ["Amount $200.00 exceeds meals limit of $75.00"], "T"⟩,
    fraudCheck := some ⟨80, .HIGH, ["flag"], "T"⟩ }
/-- A concrete record used to witness the store claims. -/
def c2Record : ExpenseEvent :=
  { expenseId := "EXP-C2", employeeId := "EMP-2", amount := 45 * 1000,
    category := "meals", description := "Team lunch at downtown restaurant",
    receiptProvided := true, submittedAt := "2026-02-08T10:00:00Z" }
/-- The chaos test input: a valid claim whose fraud step is made to throw
on every attempt. -/
def c6Input : ExpenseEvent :=
  { expenseId := "EXP-C6", employeeId := "EMP-CHAOS", amount := 100130,
    category := "travel", description := "Business trip for testing chaos",
    receiptProvided := true, submittedAt := "2026-02-08T10:00:00Z" }
/-- The workflow run in which the fraud step throws its chaos error on all
three attempts. -/
def c6Run : RunResult :=
  runWorkflow "V1" (fun _ => none)
    (fun _ => some "CHAOS_INJECTION: Simulated FraudHeuristic transient failure")
    none "2026-02-08T10:00:01Z" c6Input []
/-- A stored record for the pagination witness. -/
def c8Rec (id ts : String) : ExpenseEvent :=
  { okClaim with expenseId := id, submittedAt := ts }

/-- A three-record store for one owner, inserted out of order. -/
def c8Store : Store :=
  [("EXP-P1", c8Rec "EXP-P1" "2026-02-08T10:00:00Z"),
   ("EXP-P2", c8Rec "EXP-P2" "2026-02-10T10:00:00Z"),
   ("EXP-P3", c8Rec "EXP-P3" "2026-02-09T10:00:00Z")]
/-- A stored record pending manual review. -/
def c9Pending : ExpenseEvent :=
  { okClaim with expenseId := "EXP-C9", status := some "NEEDS_MANUAL_REVIEW" }

/-! ## Helper lemmas -/

/-- Concatenating strings concatenates their character data. -/
theorem data_append (a b : String) : (a ++ b).data = a.data ++ b.data := rfl

/-- Lower-casing acts on the character data. -/
theorem lowerStr_data (s : String) : (lowerStr s).data = s.data.map Char.toLower := rfl

/-- If `s` splits as `a ++ p ++ c` then `p` is found inside `s`. -/
theorem listContainsSub_of_split (s p a c : List Char)
    (h : s = a ++ (p ++ c)) : listContainsSub s p = true := by
  subst h
  unfold listContainsSub
  rw [List.any_eq_true]
  refine ⟨a.length, ?_, ?_⟩
  · rw [List.mem_range]
    simp [List.length_append]
    omega
  · rw [List.drop_left, List.take_left]
    simp

/-- Any lower-cased hard-limit violation message contains the
`exceeds` marker the Decision Aggregator keys off. -/
theorem hard_violation_contains_exceeds (x cat y : String) :
    strContainsSub
      (lowerStr ("Amount $" ++ x ++ " exceeds " ++ cat ++ " limit of $" ++ y))
      "exceeds" = true := by
  apply listContainsSub_of_split _ _
    ("Amount $".data.map Char.toLower ++ x.data.map Char.toLower ++ [' '])
    ([' '] ++ cat.data.map Char.toLower ++ " limit of $".data.map Char.toLower ++
      y.data.map Char.toLower)
  rw [lowerStr_data]
  simp only [data_append, List.map_append, List.append_assoc]
  have h1 : " exceeds ".data.map Char.toLower =
      [' '] ++ ("exceeds".data ++ [' ']) := by decide
  rw [h1]
  simp [List.append_assoc]

/-- A prior workflow fault always yields `FAILED_PROCESSING` with the
fault summary and cause as reasons. -/
theorem makeDecision_of_error (e : ExpenseEvent) (werr : WorkflowError)
    (h : e.error = some werr) :
    makeDecision e =
      (.FAILED_PROCESSING,
       ["Workflow execution error: " ++ werr.errName,
        if werr.cause = "" then "Unknown cause" else werr.cause]) := by
  unfold makeDecision
  rw [h]

/-- With no fault, a failed or absent validation result yields
`REJECTED` with the validation-failure reason first. -/
theorem makeDecision_validation_failed (e : ExpenseEvent)
    (herr : e.error = none)
    (hval : e.validation = none ∨ ∃ v, e.validation = some v ∧ v.passed = false) :
    makeDecision e =
      (.REJECTED,
       "Expense failed validation checks" ::
         (e.validation.getD defaultValidation).errors) := by
  unfold makeDecision
  rw [herr]
  rcases hval with h | ⟨v, h, hp⟩
  · rw [h]
    simp [defaultValidation]
  · rw [h]
    simp [hp]

/-- An absent policy result is interchangeable with an attached passing
one: `makeDecision` only reads `passed` and `violations`. -/
theorem makeDecision_policy_default (e : ExpenseEvent) (c : String)
    (herr : e.error = none) :
    makeDecision { e with policyCheck := none } =
      makeDecision { e with policyCheck := some ⟨true, [], c⟩ } := by
  unfold makeDecision
  simp [herr, defaultPolicyCheck]

/-- An absent fraud result is interchangeable with an attached LOW one. -/
theorem makeDecision_fraud_default (e : ExpenseEvent) (c : String)
    (herr : e.error = none) :
    makeDecision { e with fraudCheck := none } =
      makeDecision { e with fraudCheck := some ⟨0, .LOW, [], c⟩ } := by
  unfold makeDecision
  simp [herr, defaultFraudCheck]

/-- C1: the Decision Aggregator (`makeDecision`) is deterministic and
first-match-wins: a prior workflow fault yields FAILED_PROCESSING;
otherwise a failed or absent validation result yields REJECTED with the
validation-failure reason followed by the validation errors, regardless
of the attached policy violations or risk level; an absent policy result
defaults to passed and an absent fraud result defaults to LOW risk, so
only the validation rule defaults toward rejection. -/
theorem c1_decision_aggregator_priority :
    (∀ (e : ExpenseEvent) (werr : WorkflowError), e.error = some werr →
      makeDecision e =
        (.FAILED_PROCESSING,
         ["Workflow execution error: " ++ werr.errName,
          if werr.cause = "" then "Unknown cause" else werr.cause])) ∧
    (∀ e : ExpenseEvent, e.error = none →
      (e.validation = none ∨ ∃ v, e.validation = some v ∧ v.passed = false) →
      makeDecision e =
        (.REJECTED,
         "Expense failed validation checks" ::
           (e.validation.getD defaultValidation).errors)) ∧
    (∀ (e : ExpenseEvent) (c : String), e.error = none →
      makeDecision { e with policyCheck := none } =
        makeDecision { e with policyCheck := some ⟨true, [], c⟩ }) ∧
    (∀ (e : ExpenseEvent) (c : String), e.error = none →
      makeDecision { e with fraudCheck := none } =
        makeDecision { e with fraudCheck := some ⟨0, .LOW, [], c⟩ }) :=
  ⟨makeDecision_of_error,
   makeDecision_validation_failed,
   fun e c herr => makeDecision_policy_default e c herr,
   fun e c herr => makeDecision_fraud_default e c herr⟩

/-- Witness for C1: the priority-1 rule fires on a concrete claim with
policy and fraud results that would otherwise reject or review it. -/
theorem c1_witness :
    makeDecision c1Event =
      (.REJECTED,
       ["Expense failed validation checks",
        "amount exceeds maximum allowed (10000)"]) := by
  have h := c1_decision_aggregator_priority.2.1 c1Event rfl
    (Or.inr ⟨_, rfl, rfl⟩)
  simpa [c1Event, defaultValidation] using h

/-! ## Conditional-insert lemmas (C2) -/

/-- The conditional insert reports a write exactly when the identity was
absent. -/
theorem insert_true_iff (st : Store) (r : ExpenseEvent) :
    (storeExpenseDecision st r).1 = true ↔ st.lookup r.expenseId = none := by
  unfold storeExpenseDecision
  cases h : st.lookup r.expenseId <;> simp [h]

/-- A `false` return leaves the store — hence every previously stored
record — unchanged. -/
theorem insert_false_unchanged (st : Store) (r : ExpenseEvent)
    (h : (storeExpenseDecision st r).1 = false) :
    (storeExpenseDecision st r).2 = st := by
  unfold storeExpenseDecision at *
  cases hq : st.lookup r.expenseId <;> simp [hq] at h ⊢

/-- No insert attempt ever changes an identity that is already bound:
first-writer-wins. -/
theorem insert_preserves_existing (st : Store) (r : ExpenseEvent)
    (id : String) (v : ExpenseEvent) (h : st.lookup id = some v) :
    ((storeExpenseDecision st r).2).lookup id = some v := by
  unfold storeExpenseDecision
  cases hq : st.lookup r.expenseId with
  | some w => simpa [hq] using h
  | none => simp [hq, List.lookup_append, h]

/-- Over any sequence of submissions with the same identity, at most one
insert succeeds, and none succeeds when the identity is already bound. -/
theorem runInserts_at_most_one (rs : List ExpenseEvent) (st : Store)
    (id : String) (hall : ∀ r ∈ rs, r.expenseId = id) :
    (runInserts st rs).2 ≤ 1 ∧
      ((st.lookup id).isSome → (runInserts st rs).2 = 0) := by
  induction rs generalizing st with
  | nil => simp [runInserts]
  | cons r rs ih =>
      have hid : r.expenseId = id := hall r (by simp)
      have hall' : ∀ x ∈ rs, x.expenseId = id := fun x hx => hall x (by simp [hx])
      cases h : st.lookup id with
      | some v =>
          have hfail : (storeExpenseDecision st r).1 = false := by
            unfold storeExpenseDecision
            simp [hid, h]
          have hst : (storeExpenseDecision st r).2 = st :=
            insert_false_unchanged st r hfail
          have hzero := (ih st hall').2 (by simp [h])
          refine ⟨?_, fun _ => ?_⟩ <;> simp [runInserts, hfail, hst, hzero]
      | none =>
          have hsucc : (storeExpenseDecision st r).1 = true := by
            rw [insert_true_iff, hid, h]
          have hafter : ((storeExpenseDecision st r).2).lookup id = some r := by
            unfold storeExpenseDecision
            simp [hid, h, List.lookup_append]
          have hrec := (ih ((storeExpenseDecision st r).2) hall').2
            (by simp [hafter])
          constructor
          · simp [runInserts, hsucc, hrec]
          · intro habs
            simp at habs

/-- C2: for two submissions with identical employeeId, amount, category
and description whose identities are derived on the same calendar day,
`generateExpenseId` returns the same identity (for any digest function);
the conditional insert returns `true` iff no record with that identity
exists, a `false` return leaves every previously stored record unchanged,
and for a given identity at most one record is ever successfully inserted
(first-writer-wins). -/
theorem c2_identity_and_first_writer_wins :
    (∀ (h : String → String) (e e' : String) (a a' : ℤ) (c c' d d' dk dk' : String),
      e = e' → a = a' → c = c' → d = d' → dk = dk' →
      generateExpenseId h e a c d dk = generateExpenseId h e' a' c' d' dk') ∧
    (∀ (st : Store) (r : ExpenseEvent),
      (storeExpenseDecision st r).1 = true ↔ st.lookup r.expenseId = none) ∧
    (∀ (st : Store) (r : ExpenseEvent),
      (storeExpenseDecision st r).1 = false → (storeExpenseDecision st r).2 = st) ∧
    (∀ (st : Store) (r : ExpenseEvent) (id : String) (v : ExpenseEvent),
      st.lookup id = some v → ((storeExpenseDecision st r).2).lookup id = some v) ∧
    (∀ (rs : List ExpenseEvent) (st : Store) (id : String),
      (∀ r ∈ rs, r.expenseId = id) →
      (runInserts st rs).2 ≤ 1 ∧
        ((st.lookup id).isSome → (runInserts st rs).2 = 0)) := by
  refine ⟨?_, insert_true_iff, insert_false_unchanged,
    insert_preserves_existing, runInserts_at_most_one⟩
  intro h e e' a a' c c' d d' dk dk' he ha hc hd hdk
  rw [he, ha, hc, hd, hdk]

/-- Witness for C2: submitting the identical record twice into an empty
store performs exactly one successful insert. -/
theorem c2_witness : (runInserts [] [c2Record, c2Record]).2 ≤ 1 :=
  (c2_identity_and_first_writer_wins.2.2.2.2 [c2Record, c2Record] [] "EXP-C2"
    (by decide)).1

/-! ## Fraud-scorer lemmas (C7) -/

/-- Score effect of rule 1. -/
theorem fraudRound_fst (amount : ℤ) (acc : Nat × List String) :
    (fraudRound amount acc).1 = acc.1 +
      (if (ROUND_AMOUNTS.find? fun r =>
        decide (absInt (amount - r) < ROUND_AMOUNT_TOLERANCE)).isSome then 15 else 0) := by
  unfold fraudRound
  cases h : ROUND_AMOUNTS.find? fun r =>
    decide (absInt (amount - r) < ROUND_AMOUNT_TOLERANCE) <;> simp [h]

/-- Score effect of rule 2. -/
theorem fraudThreshold_fst (amount : ℤ) (acc : Nat × List String) :
    (fraudThreshold amount acc).1 = acc.1 +
      (if (THRESHOLD_AMOUNTS.find? fun p =>
        decide (absInt (amount - p.1) < THRESHOLD_TOLERANCE) &&
          decide (amount ≤ p.1)).isSome then 25 else 0) := by
  unfold fraudThreshold
  cases h : THRESHOLD_AMOUNTS.find? fun p =>
    decide (absInt (amount - p.1) < THRESHOLD_TOLERANCE) && decide (amount ≤ p.1) <;>
    simp [h]

/-- Score effect of rule 3. -/
theorem fraudKeyword_fst (description : String) (acc : Nat × List String) :
    (fraudKeyword description acc).1 = acc.1 +
      (if (SUSPICIOUS_KEYWORDS.find? fun k =>
        strContainsSub description k).isSome then 20 else 0) := by
  unfold fraudKeyword
  cases h : SUSPICIOUS_KEYWORDS.find? fun k => strContainsSub description k <;>
    simp [h]

/-- Score effect of rule 4. -/
theorem fraudDescQuality_fst (description : String) (acc : Nat × List String) :
    (fraudDescQuality description acc).1 = acc.1 +
      (if description.length < 10 then 15
       else if (GENERIC_PATTERN_WORDS.find? fun w =>
        description == w).isSome then 15 else 0) := by
  unfold fraudDescQuality
  by_cases h : description.length < 10
  · simp [h]
  · cases hg : GENERIC_PATTERN_WORDS.find? fun w => description == w <;>
      simp [h, hg]

/-- Score effect of rule 5. -/
theorem fraudNoReceipt_fst (amount : ℤ) (receiptProvided : Bool)
    (acc : Nat × List String) :
    (fraudNoReceipt amount receiptProvided acc).1 = acc.1 +
      (if decide (amount > 100 * 1000) && !receiptProvided then 20 else 0) := by
  unfold fraudNoReceipt
  cases h : decide (amount > 100 * 1000) && !receiptProvided <;> simp [h]

/-- Score effect of rule 6. -/
theorem fraudNorm_fst (amount : ℤ) (category : String)
    (acc : Nat × List String) :
    (fraudNorm amount category acc).1 = acc.1 +
      (match CATEGORY_NORMS.lookup category with
       | some norm => if amount > norm * 2 then 10 else 0
       | none => 0) := by
  unfold fraudNorm
  cases h : CATEGORY_NORMS.lookup category with
  | none => simp [h]
  | some norm => by_cases ha : amount > norm * 2 <;> simp [h, ha]

/-- The risk score is the clamped sum of the triggered contributions. -/
theorem analyzeFraudRisk_score_eq (e : ExpenseEvent) :
    (analyzeFraudRisk e).1 = min (fraudContribSum e) 100 := by
  unfold analyzeFraudRisk fraudContribSum
  dsimp only []
  rw [fraudNorm_fst, fraudNoReceipt_fst, fraudDescQuality_fst, fraudKeyword_fst,
    fraudThreshold_fst, fraudRound_fst]
  omega

/-- C7: for every input the Risk Scorer's score equals the clamped sum of
the fixed triggered rule contributions and lies in [0, 100], and the risk
level is a pure function of the score: HIGH iff score >= 60, MEDIUM iff
30 <= score < 60, LOW otherwise. -/
theorem c7_risk_score_clamped_sum_and_levels :
    (∀ e : ExpenseEvent,
      (analyzeFraudRisk e).1 = min (fraudContribSum e) 100 ∧
      0 ≤ (analyzeFraudRisk e).1 ∧ (analyzeFraudRisk e).1 ≤ 100) ∧
    (∀ s : Nat,
      (riskLevelOf s = .HIGH ↔ 60 ≤ s) ∧
      (riskLevelOf s = .MEDIUM ↔ 30 ≤ s ∧ s < 60) ∧
      (riskLevelOf s = .LOW ↔ s < 30)) := by
  constructor
  · intro e
    have h := analyzeFraudRisk_score_eq e
    refine ⟨h, Nat.zero_le _, ?_⟩
    rw [h]
    exact Nat.min_le_right _ _
  · intro s
    unfold riskLevelOf RISK_THRESHOLD_MEDIUM RISK_THRESHOLD_LOW
    by_cases h1 : 60 ≤ s <;> by_cases h2 : 30 ≤ s <;>
      simp [h1, h2] <;> omega

/-! ## Retry and workflow lemmas (C4, C5, C6) -/

/-- When the first `k` attempts starting at `calls` all fail, the retry
loop performs exactly `k` further invocations and rethrows an error. -/
theorem withRetryAux_all_fail {α : Type} (fn : Nat → Except String α) :
    ∀ (k calls : Nat) (last : String),
    (∀ i, i < k → ∃ e, fn (calls + i) = .error e) →
    ∃ e, withRetryAux fn last k calls = (.error e, calls + k) := by
  intro k
  induction k with
  | zero =>
      intro calls last _
      exact ⟨last, by simp [withRetryAux]⟩
  | succ k ih =>
      intro calls last h
      obtain ⟨e0, he0⟩ := h 0 (by omega)
      have hfn : fn calls = .error e0 := by simpa using he0
      obtain ⟨e, he⟩ := ih (calls + 1) e0 (fun i hi => by
        have h2 := h (i + 1) (by omega)
        rwa [show calls + (i + 1) = calls + 1 + i by omega] at h2)
      refine ⟨e, ?_⟩
      unfold withRetryAux
      rw [hfn]
      dsimp only []
      rw [he]
      congr 1
      omega

/-- A step that fails on every one of its `maxAttempts` invocations is
invoked exactly `maxAttempts` times and the last error is rethrown. -/
theorem withRetry_all_fail {α : Type} (fn : Nat → Except String α) (k : Nat)
    (h : ∀ i, i < k → ∃ e, fn i = .error e) :
    ∃ e, withRetry fn k = (.error e, k) := by
  obtain ⟨e, he⟩ := withRetryAux_all_fail fn k 0 "undefined" (by simpa using h)
  exact ⟨e, by simpa using he⟩

/-- A step that succeeds on its first attempt is invoked exactly once. -/
theorem withRetry_first_ok {α : Type} (fn : Nat → Except String α) (k : Nat)
    (a : α) (h0 : fn 0 = .ok a) (hk : 1 ≤ k) :
    withRetry fn k = (.ok a, 1) := by
  obtain ⟨m, rfl⟩ : ∃ m, k = m + 1 := ⟨k - 1, by omega⟩
  unfold withRetry withRetryAux
  rw [h0]

/-- A step that fails once and then succeeds, under at least two
configured attempts, is invoked exactly twice and succeeds. -/
theorem withRetry_second_ok {α : Type} (fn : Nat → Except String α) (k : Nat)
    (a : α) (e0 : String) (h0 : fn 0 = .error e0) (h1 : fn 1 = .ok a)
    (hk : 2 ≤ k) :
    withRetry fn k = (.ok a, 2) := by
  obtain ⟨m, rfl⟩ : ∃ m, k = m + 2 := ⟨k - 2, by omega⟩
  unfold withRetry withRetryAux
  rw [h0]
  unfold withRetryAux
  rw [h1]

/-- `decideAndStamp` writes the rendered decision. -/
theorem decideAndStamp_decision (now : String) (e : ExpenseEvent) :
    (decideAndStamp now e).decision =
      some ⟨(makeDecision e).1, (makeDecision e).2, now, none, none⟩ := rfl

/-- `decideAndStamp` sets the status to the rendered outcome. -/
theorem decideAndStamp_status (now : String) (e : ExpenseEvent) :
    (decideAndStamp now e).status = some (outcomeToString (makeDecision e).1) := rfl

/-- Fields `decideAndStamp` does not write are preserved. -/
theorem decideAndStamp_preserves (now : String) (e : ExpenseEvent) :
    (decideAndStamp now e).expenseId = e.expenseId ∧
    (decideAndStamp now e).validation = e.validation ∧
    (decideAndStamp now e).policyCheck = e.policyCheck ∧
    (decideAndStamp now e).fraudCheck = e.fraudCheck ∧
    (decideAndStamp now e).error = e.error ∧
    (decideAndStamp now e).storageError = e.storageError :=
  ⟨rfl, rfl, rfl, rfl, rfl, rfl⟩

/-- Without a prior fault, `makeDecision` never renders the compensation
outcome. -/
theorem makeDecision_ne_failed (e : ExpenseEvent) (h : e.error = none) :
    (makeDecision e).1 ≠ .FAILED_PROCESSING := by
  unfold makeDecision
  rw [h]
  dsimp only []
  split
  · simp
  · split
    · simp
    · split <;> simp

/-- The returned event of the Decision handler carries the rendered
decision. -/
theorem decisionHandler_fst_decision (sf : Option String) (now : String)
    (e : ExpenseEvent) (st : Store) :
    (decisionHandler sf now e st).1.decision =
      some ⟨(makeDecision e).1, (makeDecision e).2, now, none, none⟩ := by
  unfold decisionHandler
  cases sf <;> simp [decideAndStamp_decision]

/-- The returned event of the Decision handler carries the rendered
status. -/
theorem decisionHandler_fst_status (sf : Option String) (now : String)
    (e : ExpenseEvent) (st : Store) :
    (decisionHandler sf now e st).1.status =
      some (outcomeToString (makeDecision e).1) := by
  unfold decisionHandler
  cases sf <;> simp [decideAndStamp_status]

/-- Fields the Decision handler does not write are preserved on the
returned event. -/
theorem decisionHandler_fst_preserves (sf : Option String) (now : String)
    (e : ExpenseEvent) (st : Store) :
    (decisionHandler sf now e st).1.expenseId = e.expenseId ∧
    (decisionHandler sf now e st).1.validation = e.validation ∧
    (decisionHandler sf now e st).1.policyCheck = e.policyCheck ∧
    (decisionHandler sf now e st).1.fraudCheck = e.fraudCheck ∧
    (decisionHandler sf now e st).1.error = e.error := by
  unfold decisionHandler
  cases sf <;> exact ⟨rfl, rfl, rfl, rfl, rfl⟩

/-- A fresh insert makes the record retrievable under its identity. -/
theorem storeExpenseDecision_lookup_self (st : Store) (r : ExpenseEvent)
    (h : st.lookup r.expenseId = none) :
    ((storeExpenseDecision st r).2).lookup r.expenseId = some r := by
  unfold storeExpenseDecision
  simp [h, List.lookup_append]

/-- With a failing validation result, the workflow short-circuits to the
Decision handler: no retried step is ever invoked. -/
theorem runWorkflow_validation_fail (ver : String)
    (pf ff : Nat → Option String) (sf : Option String) (now : String)
    (input : ExpenseEvent) (st : Store)
    (hval : (validate input).isEmpty = false) :
    runWorkflow ver pf ff sf now input st =
      ⟨(decisionHandler sf now (validateHandler now input) st).1,
       (decisionHandler sf now (validateHandler now input) st).2, 0, 0⟩ := by
  unfold runWorkflow
  simp [validateHandler, hval]

/-- With a passing validation and fault-free steps, the workflow invokes
each retried step once and passes the fully-checked event to the Decision
handler. -/
theorem runWorkflow_no_fault (ver : String) (sf : Option String)
    (now : String) (input : ExpenseEvent) (st : Store)
    (hval : (validate input).isEmpty = true) :
    runWorkflow ver (fun _ => none) (fun _ => none) sf now input st =
      (let ev3 := fraudHandler now (policyHandler now (validateHandler now input))
       let r := decisionHandler sf now ev3 st
       if ver = "V2" ∧ r.1.status = some "NEEDS_MANUAL_REVIEW" then
         ⟨{ r.1 with status := some "PENDING_REVIEW" },
          (updateExpenseStatus r.2 r.1.expenseId
            { status := some "PENDING_REVIEW" } now).2, 1, 1⟩
       else ⟨r.1, r.2, 1, 1⟩) := by
  unfold runWorkflow
  rw [if_neg (by simp [validateHandler, hval])]
  dsimp only []
  rw [withRetry_first_ok _ 2 (policyHandler now (validateHandler now input)) rfl
    (by omega)]
  dsimp only []
  rw [withRetry_first_ok _ 3
    (fraudHandler now (policyHandler now (validateHandler now input))) rfl
    (by omega)]

/-- With a passing validation and a policy step that faults on every
attempt, the policy step is invoked exactly twice and the workflow takes
the compensation path on the event as mutated so far (validation
attached). -/
theorem runWorkflow_policy_fault (ver : String)
    (pf ff : Nat → Option String) (sf : Option String) (now : String)
    (input : ExpenseEvent) (st : Store)
    (hval : (validate input).isEmpty = true)
    (hpf : ∀ i, i < 2 → (pf i).isSome) :
    ∃ c, runWorkflow ver pf ff sf now input st =
      (let evErr := { validateHandler now input with
        error := some ⟨"WorkflowExecutionError", "Error: " ++ c⟩ }
       let r := decisionHandler sf now evErr st
       ⟨r.1, r.2, 2, 0⟩) := by
  obtain ⟨e, he⟩ := withRetry_all_fail
    (fun i => match pf i with
      | some err => .error err
      | none => .ok (policyHandler now (validateHandler now input))) 2
    (fun i hi => by
      obtain ⟨err, herr⟩ := Option.isSome_iff_exists.mp (hpf i hi)
      exact ⟨err, by simp [herr]⟩)
  refine ⟨e, ?_⟩
  unfold runWorkflow
  rw [if_neg (by simp [validateHandler, hval])]
  dsimp only []
  rw [he]

/-- With a passing validation, a fault-free policy step and a fraud step
that faults on every attempt, the fraud step is invoked exactly three
times and the workflow takes the compensation path on the event as
mutated so far (validation and policy attached). -/
theorem runWorkflow_fraud_fault (ver : String)
    (ff : Nat → Option String) (sf : Option String) (now : String)
    (input : ExpenseEvent) (st : Store)
    (hval : (validate input).isEmpty = true)
    (hff : ∀ i, i < 3 → (ff i).isSome) :
    ∃ c, runWorkflow ver (fun _ => none) ff sf now input st =
      (let evErr := { policyHandler now (validateHandler now input) with
        error := some ⟨"WorkflowExecutionError", "Error: " ++ c⟩ }
       let r := decisionHandler sf now evErr st
       ⟨r.1, r.2, 1, 3⟩) := by
  obtain ⟨e, he⟩ := withRetry_all_fail
    (fun i => match ff i with
      | some err => .error err
      | none => .ok (fraudHandler now (policyHandler now (validateHandler now input)))) 3
    (fun i hi => by
      obtain ⟨err, herr⟩ := Option.isSome_iff_exists.mp (hff i hi)
      exact ⟨err, by simp [herr]⟩)
  refine ⟨e, ?_⟩
  unfold runWorkflow
  rw [if_neg (by simp [validateHandler, hval])]
  dsimp only []
  rw [withRetry_first_ok _ 2 (policyHandler now (validateHandler now input)) rfl
    (by omega)]
  dsimp only []
  rw [he]

/-- With a passing validation, a policy step that faults once and then
succeeds (two configured attempts) and a fault-free fraud step, the
policy step is invoked exactly twice and the pipeline completes. -/
theorem runWorkflow_policy_fault_once (ver : String)
    (pf : Nat → Option String) (sf : Option String) (now : String)
    (input : ExpenseEvent) (st : Store) (e0 : String)
    (hval : (validate input).isEmpty = true)
    (hpf0 : pf 0 = some e0) (hpf1 : pf 1 = none) :
    runWorkflow ver pf (fun _ => none) sf now input st =
      (let ev3 := fraudHandler now (policyHandler now (validateHandler now input))
       let r := decisionHandler sf now ev3 st
       if ver = "V2" ∧ r.1.status = some "NEEDS_MANUAL_REVIEW" then
         ⟨{ r.1 with status := some "PENDING_REVIEW" },
          (updateExpenseStatus r.2 r.1.expenseId
            { status := some "PENDING_REVIEW" } now).2, 2, 1⟩
       else ⟨r.1, r.2, 2, 1⟩) := by
  unfold runWorkflow
  rw [if_neg (by simp [validateHandler, hval])]
  dsimp only []
  rw [withRetry_second_ok _ 2 (policyHandler now (validateHandler now input)) e0
    (by simp [hpf0]) (by simp [hpf1]) (by omega)]
  dsimp only []
  rw [withRetry_first_ok _ 3
    (fraudHandler now (policyHandler now (validateHandler now input))) rfl
    (by omega)]

/-- With a passing validation, a fault-free policy step and a fraud step
that faults once and then succeeds (three configured attempts), the fraud
step is invoked exactly twice and the pipeline completes. -/
theorem runWorkflow_fraud_fault_once (ver : String)
    (ff : Nat → Option String) (sf : Option String) (now : String)
    (input : ExpenseEvent) (st : Store) (e0 : String)
    (hval : (validate input).isEmpty = true)
    (hff0 : ff 0 = some e0) (hff1 : ff 1 = none) :
    runWorkflow ver (fun _ => none) ff sf now input st =
      (let ev3 := fraudHandler now (policyHandler now (validateHandler now input))
       let r := decisionHandler sf now ev3 st
       if ver = "V2" ∧ r.1.status = some "NEEDS_MANUAL_REVIEW" then
         ⟨{ r.1 with status := some "PENDING_REVIEW" },
          (updateExpenseStatus r.2 r.1.expenseId
            { status := some "PENDING_REVIEW" } now).2, 1, 2⟩
       else ⟨r.1, r.2, 1, 2⟩) := by
  unfold runWorkflow
  rw [if_neg (by simp [validateHandler, hval])]
  dsimp only []
  rw [withRetry_first_ok _ 2 (policyHandler now (validateHandler now input)) rfl
    (by omega)]
  dsimp only []
  rw [withRetry_second_ok _ 3
    (fraudHandler now (policyHandler now (validateHandler now input))) e0
    (by simp [hff0]) (by simp [hff1]) (by omega)]

/-- C4: a retried step that faults on every invocation is invoked exactly
K times (K = 2 for the policy check, K = 3 for the fraud check) and the
workflow then takes the fault path to a FAILED_PROCESSING outcome; a step
that faults once and then succeeds yields a successful (non-FAILED)
outcome; retries are immediate re-invocations. -/
theorem c4_retry_semantics :
    (∀ (ver : String) (pf ff : Nat → Option String) (sf : Option String)
       (now : String) (input : ExpenseEvent) (st : Store),
      (validate input).isEmpty = true →
      (∀ i, i < 2 → (pf i).isSome) →
      (runWorkflow ver pf ff sf now input st).policyCalls = 2 ∧
        (runWorkflow ver pf ff sf now input st).result.decision.map
          DecisionResult.outcome = some .FAILED_PROCESSING) ∧
    (∀ (ver : String) (ff : Nat → Option String) (sf : Option String)
       (now : String) (input : ExpenseEvent) (st : Store),
      (validate input).isEmpty = true →
      (∀ i, i < 3 → (ff i).isSome) →
      (runWorkflow ver (fun _ => none) ff sf now input st).fraudCalls = 3 ∧
        (runWorkflow ver (fun _ => none) ff sf now input st).result.decision.map
          DecisionResult.outcome = some .FAILED_PROCESSING) ∧
    (∀ (ver : String) (pf : Nat → Option String) (sf : Option String)
       (now : String) (input : ExpenseEvent) (st : Store) (e0 : String),
      input.error = none →
      (validate input).isEmpty = true →
      pf 0 = some e0 → pf 1 = none →
      (runWorkflow ver pf (fun _ => none) sf now input st).policyCalls = 2 ∧
        (runWorkflow ver pf (fun _ => none) sf now input st).result.decision.map
          DecisionResult.outcome ≠ some .FAILED_PROCESSING) ∧
    (∀ (ver : String) (ff : Nat → Option String) (sf : Option String)
       (now : String) (input : ExpenseEvent) (st : Store) (e0 : String),
      input.error = none →
      (validate input).isEmpty = true →
      ff 0 = some e0 → ff 1 = none →
      (runWorkflow ver (fun _ => none) ff sf now input st).fraudCalls = 2 ∧
        (runWorkflow ver (fun _ => none) ff sf now input st).result.decision.map
          DecisionResult.outcome ≠ some .FAILED_PROCESSING) := by
  refine ⟨?_, ?_, ?_, ?_⟩
  · intro ver pf ff sf now input st hval hpf
    obtain ⟨c, hc⟩ := runWorkflow_policy_fault ver pf ff sf now input st hval hpf
    rw [hc]
    refine ⟨rfl, ?_⟩
    dsimp only []
    rw [decisionHandler_fst_decision,
      makeDecision_of_error _ ⟨"WorkflowExecutionError", "Error: " ++ c⟩ rfl]
    simp
  · intro ver ff sf now input st hval hff
    obtain ⟨c, hc⟩ := runWorkflow_fraud_fault ver ff sf now input st hval hff
    rw [hc]
    refine ⟨rfl, ?_⟩
    dsimp only []
    rw [decisionHandler_fst_decision,
      makeDecision_of_error _ ⟨"WorkflowExecutionError", "Error: " ++ c⟩ rfl]
    simp
  · intro ver pf sf now input st e0 herr hval hpf0 hpf1
    rw [runWorkflow_policy_fault_once ver pf sf now input st e0 hval hpf0 hpf1]
    have hne := makeDecision_ne_failed
      (fraudHandler now (policyHandler now (validateHandler now input)))
      (by simpa [fraudHandler, policyHandler, validateHandler] using herr)
    dsimp only []
    constructor
    · split <;> rfl
    · split <;> simp [decisionHandler_fst_decision, hne]
  · intro ver ff sf now input st e0 herr hval hff0 hff1
    rw [runWorkflow_fraud_fault_once ver ff sf now input st e0 hval hff0 hff1]
    have hne := makeDecision_ne_failed
      (fraudHandler now (policyHandler now (validateHandler now input)))
      (by simpa [fraudHandler, policyHandler, validateHandler] using herr)
    dsimp only []
    constructor
    · split <;> rfl
    · split <;> simp [decisionHandler_fst_decision, hne]

/-- Witness for C4: a policy step that faults on both attempts on a
concrete valid claim is invoked exactly twice and the outcome is
FAILED_PROCESSING. -/
theorem c4_witness :
    (runWorkflow "V1" (fun _ => some "boom") (fun _ => none) none "T" okClaim
      []).policyCalls = 2 ∧
    (runWorkflow "V1" (fun _ => some "boom") (fun _ => none) none "T" okClaim
      []).result.decision.map DecisionResult.outcome =
        some .FAILED_PROCESSING :=
  c4_retry_semantics.1 "V1" (fun _ => some "boom") (fun _ => none) none "T"
    okClaim [] (by decide) (fun i _ => rfl)

/-- C5: when validation fails, the orchestrator never invokes the policy
or fraud steps, proceeds directly to the Decision handler and persistence,
and both the returned and the stored record carry no policy or fraud
attachment. -/
theorem c5_short_circuit (ver : String) (pf ff : Nat → Option String)
    (now : String) (input : ExpenseEvent) (st : Store)
    (hpol : input.policyCheck = none) (hfr : input.fraudCheck = none)
    (hval : (validate input).isEmpty = false)
    (hfresh : st.lookup input.expenseId = none) :
    (runWorkflow ver pf ff none now input st).policyCalls = 0 ∧
    (runWorkflow ver pf ff none now input st).fraudCalls = 0 ∧
    (runWorkflow ver pf ff none now input st).result.policyCheck = none ∧
    (runWorkflow ver pf ff none now input st).result.fraudCheck = none ∧
    (runWorkflow ver pf ff none now input st).result.decision.isSome = true ∧
    (∃ r, (runWorkflow ver pf ff none now input st).store.lookup
        input.expenseId = some r ∧
      r.policyCheck = none ∧ r.fraudCheck = none ∧ r.decision.isSome = true) := by
  rw [runWorkflow_validation_fail ver pf ff none now input st hval]
  dsimp only []
  refine ⟨rfl, rfl, ?_, ?_, ?_, ?_⟩
  · rw [(decisionHandler_fst_preserves _ _ _ _).2.2.1]
    simpa [validateHandler] using hpol
  · rw [(decisionHandler_fst_preserves _ _ _ _).2.2.2.1]
    simpa [validateHandler] using hfr
  · rw [decisionHandler_fst_decision]
    rfl
  · refine ⟨decideAndStamp now (validateHandler now input), ?_, ?_, ?_, rfl⟩
    · show ((decisionHandler none now (validateHandler now input) st).2).lookup
        input.expenseId = _
      unfold decisionHandler
      dsimp only []
      have hid : (decideAndStamp now (validateHandler now input)).expenseId =
          input.expenseId := rfl
      rw [← hid]
      exact storeExpenseDecision_lookup_self st _ (by rwa [hid])
    · simpa [decideAndStamp, validateHandler] using hpol
    · simpa [decideAndStamp, validateHandler] using hfr

/-- Witness for C5: running a concrete invalid claim invokes neither
retried step and persists a record with no policy or fraud attachment. -/
theorem c5_witness :
    (runWorkflow "V1" (fun _ => none) (fun _ => none) none "T" badClaim
      []).policyCalls = 0 ∧
    (runWorkflow "V1" (fun _ => none) (fun _ => none) none "T" badClaim
      []).fraudCalls = 0 ∧
    (runWorkflow "V1" (fun _ => none) (fun _ => none) none "T" badClaim
      []).result.policyCheck = none ∧
    (runWorkflow "V1" (fun _ => none) (fun _ => none) none "T" badClaim
      []).result.fraudCheck = none ∧
    (runWorkflow "V1" (fun _ => none) (fun _ => none) none "T" badClaim
      []).result.decision.isSome = true ∧
    (∃ r, (runWorkflow "V1" (fun _ => none) (fun _ => none) none "T" badClaim
        []).store.lookup "EXP-BAD" = some r ∧
      r.policyCheck = none ∧ r.fraudCheck = none ∧ r.decision.isSome = true) :=
  c5_short_circuit "V1" (fun _ => none) (fun _ => none) "T" badClaim []
    rfl rfl (by decide) rfl

/-- Counterexample for C6: on this concrete run the record routed to the
Decision handler and persisted with the FAILED_PROCESSING outcome still
carries the validation and policyCheck result blocks of the steps that
completed before the fault — the step handlers mutate the shared event in
place, so the compensation path does not see a pristine input claim. -/
theorem c6_counterexample :
    c6Run.result.status = some "FAILED_PROCESSING" ∧
    c6Run.result.validation.isSome = true ∧
    c6Run.result.policyCheck.isSome = true ∧
    (c6Run.store.lookup "EXP-C6").map (fun r => r.status) =
      some (some "FAILED_PROCESSING") ∧
    (c6Run.store.lookup "EXP-C6").map (fun r => r.validation.isSome) =
      some true ∧
    (c6Run.store.lookup "EXP-C6").map (fun r => r.policyCheck.isSome) =
      some true := by
  decide

/-- C6 (amended): when a step fault exhausts its retries, the fault record
is attached to the shared workflow event and the record routed to the
Decision handler and persisted carries the FAILED_PROCESSING outcome; but
because the step handlers mutate that event in place, the result blocks
of steps that completed before the fault (validation, and policyCheck when
the fraud step faults) remain attached; only the faulted step itself
leaves no block. -/
theorem c6_compensation_keeps_prior_attachments (ver : String)
    (ff : Nat → Option String) (sf : Option String) (now : String)
    (input : ExpenseEvent) (st : Store)
    (hfr : input.fraudCheck = none)
    (hval : (validate input).isEmpty = true)
    (hff : ∀ i, i < 3 → (ff i).isSome) :
    ∃ c,
      (runWorkflow ver (fun _ => none) ff sf now input st).result.error =
        some ⟨"WorkflowExecutionError", c⟩ ∧
      (runWorkflow ver (fun _ => none) ff sf now input st).result.decision.map
        DecisionResult.outcome = some .FAILED_PROCESSING ∧
      (runWorkflow ver (fun _ => none) ff sf now input st).result.validation.isSome
        = true ∧
      (runWorkflow ver (fun _ => none) ff sf now input st).result.policyCheck.isSome
        = true ∧
      (runWorkflow ver (fun _ => none) ff sf now input st).result.fraudCheck =
        none ∧
      (sf = none → st.lookup input.expenseId = none →
        ∃ r, (runWorkflow ver (fun _ => none) ff sf now input st).store.lookup
            input.expenseId = some r ∧
          r.validation.isSome = true ∧ r.policyCheck.isSome = true ∧
          r.fraudCheck = none ∧ r.status = some "FAILED_PROCESSING") := by
  obtain ⟨c, hc⟩ := runWorkflow_fraud_fault ver ff sf now input st hval hff
  rw [hc]
  dsimp only []
  refine ⟨"Error: " ++ c, ?_, ?_, ?_, ?_, ?_, ?_⟩
  · rw [(decisionHandler_fst_preserves _ _ _ _).2.2.2.2]
  · rw [decisionHandler_fst_decision,
      makeDecision_of_error _ ⟨"WorkflowExecutionError", "Error: " ++ c⟩ rfl]
    simp
  · rw [(decisionHandler_fst_preserves _ _ _ _).2.1]
    simp [policyHandler, validateHandler]
  · rw [(decisionHandler_fst_preserves _ _ _ _).2.2.1]
    simp [policyHandler, validateHandler]
  · rw [(decisionHandler_fst_preserves _ _ _ _).2.2.2.1]
    simpa [policyHandler, validateHandler] using hfr
  · intro hsf hfresh
    subst hsf
    refine ⟨decideAndStamp now { policyHandler now (validateHandler now input) with
      error := some ⟨"WorkflowExecutionError", "Error: " ++ c⟩ }, ?_, ?_, ?_, ?_, ?_⟩
    · show ((decisionHandler none now _ st).2).lookup input.expenseId = _
      unfold decisionHandler
      dsimp only []
      have hid : (decideAndStamp now { policyHandler now (validateHandler now input) with
          error := some ⟨"WorkflowExecutionError", "Error: " ++ c⟩ }).expenseId =
          input.expenseId := rfl
      rw [← hid]
      exact storeExpenseDecision_lookup_self st _ (by rwa [hid])
    · simp [decideAndStamp, policyHandler, validateHandler]
    · simp [decideAndStamp, policyHandler, validateHandler]
    · simpa [decideAndStamp, policyHandler, validateHandler] using hfr
    · rw [decideAndStamp_status,
        makeDecision_of_error _ ⟨"WorkflowExecutionError", "Error: " ++ c⟩ rfl]
      rfl

/-- Witness for the amended C6 on a concrete run: the FAILED record keeps
its validation and policy attachments. -/
theorem c6_witness :
    ∃ c,
      (runWorkflow "V1" (fun _ => none) (fun _ => some "CHAOS") none "T" okClaim
        []).result.error = some ⟨"WorkflowExecutionError", c⟩ ∧
      (runWorkflow "V1" (fun _ => none) (fun _ => some "CHAOS") none "T" okClaim
        []).result.decision.map DecisionResult.outcome =
          some .FAILED_PROCESSING ∧
      (runWorkflow "V1" (fun _ => none) (fun _ => some "CHAOS") none "T" okClaim
        []).result.validation.isSome = true ∧
      (runWorkflow "V1" (fun _ => none) (fun _ => some "CHAOS") none "T" okClaim
        []).result.policyCheck.isSome = true ∧
      (runWorkflow "V1" (fun _ => none) (fun _ => some "CHAOS") none "T" okClaim
        []).result.fraudCheck = none ∧
      (none = (none : Option String) → ([] : Store).lookup okClaim.expenseId = none →
        ∃ r, (runWorkflow "V1" (fun _ => none) (fun _ => some "CHAOS") none "T"
            okClaim []).store.lookup okClaim.expenseId = some r ∧
          r.validation.isSome = true ∧ r.policyCheck.isSome = true ∧
          r.fraudCheck = none ∧ r.status = some "FAILED_PROCESSING") :=
  c6_compensation_keeps_prior_attachments "V1" (fun _ => some "CHAOS") none "T"
    okClaim [] rfl (by decide) (fun i _ => rfl)

/-! ## Policy hard/soft limit lemmas (C3) -/

/-- With passing validation and a violation carrying the `exceeds` marker,
the aggregator renders REJECTED. -/
theorem makeDecision_limit_rejected (e : ExpenseEvent) (v : ValidationResult)
    (p : PolicyCheckResult) (herr : e.error = none) (hv : e.validation = some v)
    (hvp : v.passed = true) (hp : e.policyCheck = some p)
    (hlimit : p.violations.any
      (fun x => strContainsSub (lowerStr x) "exceeds") = true) :
    (makeDecision e).1 = .REJECTED := by
  unfold makeDecision
  rw [herr, hv, hp]
  simp [hvp, hlimit]

/-- With passing validation, no `exceeds`-marked violation, and a failed
policy result, the aggregator renders NEEDS_MANUAL_REVIEW. -/
theorem makeDecision_review (e : ExpenseEvent) (v : ValidationResult)
    (p : PolicyCheckResult) (herr : e.error = none) (hv : e.validation = some v)
    (hvp : v.passed = true) (hp : e.policyCheck = some p)
    (hnolimit : p.violations.any
      (fun x => strContainsSub (lowerStr x) "exceeds") = false)
    (hnp : p.passed = false) :
    (makeDecision e).1 = .NEEDS_MANUAL_REVIEW := by
  unfold makeDecision
  rw [herr, hv, hp]
  simp [hvp, hnolimit, hnp]

/-- Inversion of the scrutiny-category lookup: only three categories carry
a scrutiny threshold. -/
theorem scrutiny_lookup_cases (cat : String) (t : ℤ)
    (h : HIGH_SCRUTINY_CATEGORIES.lookup cat = some t) :
    (cat = "client_entertainment" ∧ t = 150 * 1000) ∨
    (cat = "miscellaneous" ∧ t = 50 * 1000) ∨
    (cat = "meals" ∧ t = 50 * 1000) := by
  by_cases h1 : cat = "client_entertainment"
  · subst h1
    simp [HIGH_SCRUTINY_CATEGORIES, List.lookup] at h
    exact Or.inl ⟨rfl, h.symm⟩
  · by_cases h2 : cat = "miscellaneous"
    · subst h2
      simp [HIGH_SCRUTINY_CATEGORIES, List.lookup] at h
      exact Or.inr (Or.inl ⟨rfl, h.symm⟩)
    · by_cases h3 : cat = "meals"
      · subst h3
        simp [HIGH_SCRUTINY_CATEGORIES, List.lookup] at h
        exact Or.inr (Or.inr ⟨rfl, h.symm⟩)
      · exfalso
        have b1 : (cat == "client_entertainment") = false :=
          beq_eq_false_iff_ne.mpr h1
        have b2 : (cat == "miscellaneous") = false := beq_eq_false_iff_ne.mpr h2
        have b3 : (cat == "meals") = false := beq_eq_false_iff_ne.mpr h3
        simp [HIGH_SCRUTINY_CATEGORIES, List.lookup, b1, b2, b3] at h

/-- When the amount exceeds the category ceiling, the hard-limit violation
string is among the policy violations. -/
theorem checkPolicy_hard_mem (amount : ℤ) (cat : String) (receipt : Bool)
    (limit : ℤ) (hlim : CATEGORY_LIMITS.lookup cat = some limit)
    (hamt : amount > limit) :
    ("Amount $" ++ toFixed2 amount ++ " exceeds " ++ cat ++ " limit of $" ++
      toFixed2 limit) ∈ checkPolicy amount cat receipt := by
  unfold checkPolicy
  rw [hlim]
  dsimp only []
  rw [if_pos hamt]
  repeat' split
  all_goals simp

/-- With the hard-limit violation attached, the aggregator's marker scan
fires. -/
theorem checkPolicy_hard_any (amount : ℤ) (cat : String) (receipt : Bool)
    (limit : ℤ) (hlim : CATEGORY_LIMITS.lookup cat = some limit)
    (hamt : amount > limit) :
    (checkPolicy amount cat receipt).any
      (fun x => strContainsSub (lowerStr x) "exceeds") = true := by
  rw [List.any_eq_true]
  refine ⟨"Amount $" ++ toFixed2 amount ++ " exceeds " ++ cat ++
    " limit of $" ++ toFixed2 limit,
    checkPolicy_hard_mem amount cat receipt limit hlim hamt, ?_⟩
  exact hard_violation_contains_exceeds (toFixed2 amount) cat (toFixed2 limit)

/-- When the amount stays at or below the category ceiling but exceeds the
scrutiny threshold, no violation carries the `exceeds` marker, yet the
violation list is nonempty. -/
theorem checkPolicy_soft_no_exceeds (amount : ℤ) (cat : String)
    (receipt : Bool) (limit t : ℤ)
    (hlim : CATEGORY_LIMITS.lookup cat = some limit) (hle : amount ≤ limit)
    (hscr : HIGH_SCRUTINY_CATEGORIES.lookup cat = some t) (ht : amount > t) :
    (checkPolicy amount cat receipt).any
      (fun x => strContainsSub (lowerStr x) "exceeds") = false ∧
    (checkPolicy amount cat receipt).isEmpty = false := by
  rcases scrutiny_lookup_cases cat t hscr with ⟨hcat, htv⟩ | ⟨hcat, htv⟩ | ⟨hcat, htv⟩ <;>
    subst hcat <;> subst htv
  · simp [CATEGORY_LIMITS, List.lookup] at hlim
    subst hlim
    cases hr : receipt
    · have hlist : checkPolicy amount "client_entertainment" false =
          ["Receipt required for expenses over $" ++
            toFixed2 25000,
           "Category " ++ sq ++ "client_entertainment" ++ sq ++
            " requires additional review for amounts over $" ++
            toFixed2 150000] := by
        simp [checkPolicy, CATEGORY_LIMITS, HIGH_SCRUTINY_CATEGORIES,
          RECEIPT_REQUIRED_THRESHOLD, List.lookup,
          show ¬ ((300000 : ℤ) < amount) from by omega,
          show (25000 : ℤ) < amount from by omega,
          show (150000 : ℤ) < amount from by omega]
      rw [hlist]
      exact ⟨by decide, by decide⟩
    · have hlist : checkPolicy amount "client_entertainment" true =
          ["Category " ++ sq ++ "client_entertainment" ++ sq ++
            " requires additional review for amounts over $" ++
            toFixed2 150000] := by
        simp [checkPolicy, CATEGORY_LIMITS, HIGH_SCRUTINY_CATEGORIES,
          RECEIPT_REQUIRED_THRESHOLD, List.lookup,
          show ¬ ((300000 : ℤ) < amount) from by omega,
          show (150000 : ℤ) < amount from by omega]
      rw [hlist]
      exact ⟨by decide, by decide⟩
  · simp [CATEGORY_LIMITS, List.lookup] at hlim
    subst hlim
    cases hr : receipt
    · have hlist : checkPolicy amount "miscellaneous" false =
          ["Receipt required for expenses over $" ++
            toFixed2 25000,
           "Category " ++ sq ++ "miscellaneous" ++ sq ++
            " requires additional review for amounts over $" ++
            toFixed2 50000] := by
        simp [checkPolicy, CATEGORY_LIMITS, HIGH_SCRUTINY_CATEGORIES,
          RECEIPT_REQUIRED_THRESHOLD, List.lookup,
          show ¬ ((100000 : ℤ) < amount) from by omega,
          show (25000 : ℤ) < amount from by omega,
          show (50000 : ℤ) < amount from by omega]
      rw [hlist]
      exact ⟨by decide, by decide⟩
    · have hlist : checkPolicy amount "miscellaneous" true =
          ["Category " ++ sq ++ "miscellaneous" ++ sq ++
            " requires additional review for amounts over $" ++
            toFixed2 50000] := by
        simp [checkPolicy, CATEGORY_LIMITS, HIGH_SCRUTINY_CATEGORIES,
          RECEIPT_REQUIRED_THRESHOLD, List.lookup,
          show ¬ ((100000 : ℤ) < amount) from by omega,
          show (50000 : ℤ) < amount from by omega]
      rw [hlist]
      exact ⟨by decide, by decide⟩
  · simp [CATEGORY_LIMITS, List.lookup] at hlim
    subst hlim
    cases hr : receipt
    · have hlist : checkPolicy amount "meals" false =
          ["Receipt required for expenses over $" ++
            toFixed2 25000,
           "Category " ++ sq ++ "meals" ++ sq ++
            " requires additional review for amounts over $" ++
            toFixed2 50000] := by
        simp [checkPolicy, CATEGORY_LIMITS, HIGH_SCRUTINY_CATEGORIES,
          RECEIPT_REQUIRED_THRESHOLD, List.lookup,
          show ¬ ((75000 : ℤ) < amount) from by omega,
          show (25000 : ℤ) < amount from by omega,
          show (50000 : ℤ) < amount from by omega]
      rw [hlist]
      exact ⟨by decide, by decide⟩
    · have hlist : checkPolicy amount "meals" true =
          ["Category " ++ sq ++ "meals" ++ sq ++
            " requires additional review for amounts over $" ++
            toFixed2 50000] := by
        simp [checkPolicy, CATEGORY_LIMITS, HIGH_SCRUTINY_CATEGORIES,
          RECEIPT_REQUIRED_THRESHOLD, List.lookup,
          show ¬ ((75000 : ℤ) < amount) from by omega,
          show (50000 : ℤ) < amount from by omega]
      rw [hlist]
      exact ⟨by decide, by decide⟩

/-- C3: for every claim that passes validation, an amount exceeding the
category's hard spending ceiling makes the final outcome REJECTED (the
hard-limit violation carries the `exceeds` marker the aggregator keys
off), regardless of risk; an amount exceeding only the category's
additional-scrutiny soft threshold with LOW risk makes the final outcome
NEEDS_MANUAL_REVIEW, never REJECTED. -/
theorem c3_hard_ceiling_vs_soft_scrutiny :
    (∀ (ver : String) (sf : Option String) (now : String)
       (input : ExpenseEvent) (st : Store) (limit : ℤ),
      input.error = none →
      (validate input).isEmpty = true →
      CATEGORY_LIMITS.lookup input.category = some limit →
      input.amount > limit →
      (runWorkflow ver (fun _ => none) (fun _ => none) sf now input
        st).result.decision.map DecisionResult.outcome = some .REJECTED) ∧
    (∀ (ver : String) (sf : Option String) (now : String)
       (input : ExpenseEvent) (st : Store) (limit t : ℤ),
      input.error = none →
      (validate input).isEmpty = true →
      CATEGORY_LIMITS.lookup input.category = some limit →
      input.amount ≤ limit →
      HIGH_SCRUTINY_CATEGORIES.lookup input.category = some t →
      input.amount > t →
      riskLevelOf (analyzeFraudRisk input).1 = .LOW →
      (runWorkflow ver (fun _ => none) (fun _ => none) sf now input
        st).result.decision.map DecisionResult.outcome =
          some .NEEDS_MANUAL_REVIEW) := by
  constructor
  · intro ver sf now input st limit herr hval hlim hamt
    rw [runWorkflow_no_fault ver sf now input st hval]
    have herr3 : (fraudHandler now (policyHandler now
        (validateHandler now input))).error = none :=
      (rfl : (fraudHandler now (policyHandler now
        (validateHandler now input))).error = input.error).trans herr
    have houtcome : (makeDecision (fraudHandler now (policyHandler now
        (validateHandler now input)))).1 = .REJECTED :=
      makeDecision_limit_rejected _
        ⟨(validate input).isEmpty, validate input, now⟩
        ⟨(checkPolicy input.amount input.category input.receiptProvided).isEmpty,
          checkPolicy input.amount input.category input.receiptProvided, now⟩
        herr3 rfl hval rfl
        (checkPolicy_hard_any input.amount input.category input.receiptProvided
          limit hlim hamt)
    dsimp only []
    split <;> simp [decisionHandler_fst_decision, houtcome]
  · intro ver sf now input st limit t herr hval hlim hle hscr ht _
    rw [runWorkflow_no_fault ver sf now input st hval]
    have herr3 : (fraudHandler now (policyHandler now
        (validateHandler now input))).error = none :=
      (rfl : (fraudHandler now (policyHandler now
        (validateHandler now input))).error = input.error).trans herr
    have hsoft := checkPolicy_soft_no_exceeds input.amount input.category
      input.receiptProvided limit t hlim hle hscr ht
    have houtcome : (makeDecision (fraudHandler now (policyHandler now
        (validateHandler now input)))).1 = .NEEDS_MANUAL_REVIEW :=
      makeDecision_review _
        ⟨(validate input).isEmpty, validate input, now⟩
        ⟨(checkPolicy input.amount input.category input.receiptProvided).isEmpty,
          checkPolicy input.amount input.category input.receiptProvided, now⟩
        herr3 rfl hval rfl hsoft.1 hsoft.2
    dsimp only []
    split <;> simp [decisionHandler_fst_decision, houtcome]

/-- Witness for C3: a 200-dollar meals claim passes validation, exceeds the
75-dollar meals ceiling, and is REJECTED. -/
theorem c3_witness :
    (runWorkflow "V1" (fun _ => none) (fun _ => none) none "T"
      { okClaim with amount := 200 * 1000 } []).result.decision.map
        DecisionResult.outcome = some .REJECTED :=
  c3_hard_ceiling_vs_soft_scrutiny.1 "V1" none "T"
    { okClaim with amount := 200 * 1000 } [] (75 * 1000) rfl (by decide)
    (by decide) (by decide)

/-! ## Pagination lemmas (C8) -/

/-- Following cursors from `startIdx` with enough fuel concatenates to the
suffix of the sorted list from that index. -/
theorem collectPages_complete (all : List ExpenseEvent) (P : Nat)
    (hP : 1 ≤ P) :
    ∀ (fuel startIdx : Nat), all.length - startIdx ≤ fuel →
    collectPages all P fuel startIdx = all.drop startIdx := by
  intro fuel
  induction fuel with
  | zero =>
      intro startIdx h
      have hlen : all.length ≤ startIdx := by omega
      simp [collectPages, List.drop_eq_nil_of_le hlen]
  | succ fuel ih =>
      intro startIdx h
      unfold collectPages pageQuery
      dsimp only []
      by_cases hc : startIdx + P < all.length
      · rw [if_pos hc]
        dsimp only []
        rw [ih (startIdx + P) (by omega)]
        rw [← List.drop_drop, List.take_append_drop]
      · rw [if_neg hc]
        dsimp only []
        have hlen : (all.drop startIdx).length ≤ P := by
          simp [List.length_drop]
          omega
        rw [List.take_of_length_le hlen]

/-- C8: for every owner and page size P >= 1, starting the paginated query
with no cursor and repeatedly passing back the returned cursor visits all
of that owner's records exactly once — the concatenated pages equal the
sorted owner list, which is a permutation of the owner's stored records —
in submission-time descending order, and the cursor is absent exactly on
the final page. -/
theorem c8_pagination_complete (st : Store) (emp : String) (P : Nat)
    (hP : 1 ≤ P) :
    collectPages (ownerRecordsSorted st emp) P
        ((ownerRecordsSorted st emp).length + 1) 0 =
      ownerRecordsSorted st emp ∧
    (ownerRecordsSorted st emp).Perm
      ((st.map Prod.snd).filter fun e => e.employeeId == emp) ∧
    List.Pairwise (fun a b => b.submittedAt ≤ a.submittedAt)
      (collectPages (ownerRecordsSorted st emp) P
        ((ownerRecordsSorted st emp).length + 1) 0) ∧
    (∀ startIdx, (pageQuery (ownerRecordsSorted st emp) P startIdx).2 = none ↔
      (ownerRecordsSorted st emp).length ≤ startIdx + P) := by
  have hcomplete := collectPages_complete (ownerRecordsSorted st emp) P hP
    ((ownerRecordsSorted st emp).length + 1) 0 (by omega)
  rw [List.drop_zero] at hcomplete
  refine ⟨hcomplete, List.mergeSort_perm _ _, ?_, ?_⟩
  · rw [hcomplete]
    have hsorted := @List.sorted_mergeSort ExpenseEvent
      (fun a b : ExpenseEvent => decide (b.submittedAt ≤ a.submittedAt))
      (fun a b c hab hbc => decide_eq_true
        (le_trans (of_decide_eq_true hbc) (of_decide_eq_true hab)))
      (fun a b => by
        rcases le_total b.submittedAt a.submittedAt with h | h <;> simp [h])
      ((st.map Prod.snd).filter fun e => e.employeeId == emp)
    exact hsorted.imp fun h => of_decide_eq_true h
  · intro startIdx
    unfold pageQuery
    by_cases hc : startIdx + P < (ownerRecordsSorted st emp).length <;>
      simp [hc] <;> try omega

/-- Witness for C8: with page size 2 and three stored records, following
the cursor from the first page visits the whole sorted owner list. -/
theorem c8_witness :
    collectPages (ownerRecordsSorted c8Store "EMP-1") 2
        ((ownerRecordsSorted c8Store "EMP-1").length + 1) 0 =
      ownerRecordsSorted c8Store "EMP-1" :=
  (c8_pagination_complete c8Store "EMP-1" 2 (by decide)).1

/-! ## Manual-decision lemmas (C9) -/

/-- Replacing a present binding is observable at its key. -/
theorem storeSet_lookup (st : Store) (id : String) (v w : ExpenseEvent)
    (h : st.lookup id = some w) : (storeSet st id v).lookup id = some v := by
  induction st with
  | nil => simp [List.lookup] at h
  | cons p st ih =>
      obtain ⟨k, ev⟩ := p
      by_cases hp : k = id
      · subst hp
        have hhead : storeSet ((k, ev) :: st) k v = (k, v) :: storeSet st k v := by
          simp [storeSet]
        rw [hhead]
        simp [List.lookup]
      · have hhead : storeSet ((k, ev) :: st) id v = (k, ev) :: storeSet st id v := by
          simp [storeSet, hp]
        rw [hhead]
        have hb : (id == k) = false :=
          beq_eq_false_iff_ne.mpr fun hh => hp hh.symm
        simp only [List.lookup, hb] at h ⊢
        exact ih h

/-- C9: `handleManualDecision` returns an explicit failure result — never
an exception — with a message distinguishing bad decision value, short
reason, record not found, and record not reviewable; each failure leaves
the store unchanged; success stamps manualOverride, the requested outcome,
and the reviewer, and merge-updates the stored record. -/
theorem c9_manual_decision_cases :
    (∀ (st : Store) (id : String) (req : ManualDecisionRequest) (now : String),
      ¬(req.decision = "APPROVED" ∨ req.decision = "REJECTED") →
      handleManualDecision st id req now =
        ({ success := false,
           error := some "decision must be APPROVED or REJECTED" }, st)) ∧
    (∀ (st : Store) (id : String) (req : ManualDecisionRequest) (now : String),
      (req.decision = "APPROVED" ∨ req.decision = "REJECTED") →
      (trimStr req.reason).length < 3 →
      handleManualDecision st id req now =
        ({ success := false,
           error := some "reason must be at least 3 characters" }, st)) ∧
    (∀ (st : Store) (id : String) (req : ManualDecisionRequest) (now : String),
      (req.decision = "APPROVED" ∨ req.decision = "REJECTED") →
      ¬ (trimStr req.reason).length < 3 →
      st.lookup id = none →
      handleManualDecision st id req now =
        ({ success := false,
           error := some ("Expense " ++ id ++ " not found") }, st)) ∧
    (∀ (st : Store) (id : String) (req : ManualDecisionRequest) (now : String)
       (e : ExpenseEvent),
      (req.decision = "APPROVED" ∨ req.decision = "REJECTED") →
      ¬ (trimStr req.reason).length < 3 →
      st.lookup id = some e →
      REVIEWABLE_STATUSES.contains (e.status.getD "") = false →
      handleManualDecision st id req now =
        ({ success := false,
           error := some ("Expense " ++ id ++
             " is not pending review (current status: " ++
             e.status.getD "undefined" ++ ")") }, st)) ∧
    (∀ (st : Store) (id : String) (req : ManualDecisionRequest) (now : String)
       (e : ExpenseEvent),
      (req.decision = "APPROVED" ∨ req.decision = "REJECTED") →
      ¬ (trimStr req.reason).length < 3 →
      st.lookup id = some e →
      REVIEWABLE_STATUSES.contains (e.status.getD "") = true →
      ∃ u, handleManualDecision st id req now =
          ({ success := true, expense := some u }, storeSet st id u) ∧
        u.status = some req.decision ∧
        (∃ rv, u.decision = some
          { outcome := if req.decision = "APPROVED" then .APPROVED else .REJECTED,
            reasons := [trimStr req.reason], decidedAt := now,
            manualOverride := some true, reviewedBy := some rv }) ∧
        u.updatedAt = some now ∧
        (storeSet st id u).lookup id = some u) := by
  refine ⟨?_, ?_, ?_, ?_, ?_⟩
  · intro st id req now hd
    unfold handleManualDecision
    rw [if_pos hd]
  · intro st id req now hd hr
    unfold handleManualDecision
    rw [if_neg (not_not_intro hd), if_pos hr]
  · intro st id req now hd hr hl
    unfold handleManualDecision
    rw [if_neg (not_not_intro hd), if_neg hr, hl]
  · intro st id req now e hd hr hl hrev
    unfold handleManualDecision
    rw [if_neg (not_not_intro hd), if_neg hr, hl]
    dsimp only []
    rw [if_pos (by simpa using hrev)]
  · intro st id req now e hd hr hl hrev
    refine ⟨{ applyUpdates e
        { status := some req.decision,
          decision := some
            { outcome := if req.decision = "APPROVED" then .APPROVED else .REJECTED,
              reasons := [trimStr req.reason], decidedAt := now,
              manualOverride := some true,
              reviewedBy := some (match req.reviewedBy with
                | some r => if trimStr r = "" then "unknown" else trimStr r
                | none => "unknown") } } with
        updatedAt := some now }, ?_, rfl, ⟨_, rfl⟩, rfl, ?_⟩
    · unfold handleManualDecision updateExpenseStatus
      rw [if_neg (not_not_intro hd), if_neg hr, hl]
      dsimp only []
      rw [if_neg (by simpa using hrev)]
    · exact storeSet_lookup st id _ e hl

/-- Witness for C9: approving a concrete pending record succeeds, stamps
the override, and updates the stored record. -/
theorem c9_witness :
    ∃ u, handleManualDecision [("EXP-C9", c9Pending)] "EXP-C9"
        { decision := "APPROVED", reason := "verified with receipts",
          reviewedBy := some "manager1" } "T" =
        ({ success := true, expense := some u },
         storeSet [("EXP-C9", c9Pending)] "EXP-C9" u) ∧
      u.status = some "APPROVED" ∧
      (∃ rv, u.decision = some
        { outcome := if "APPROVED" = "APPROVED" then .APPROVED else .REJECTED,
          reasons := [trimStr "verified with receipts"], decidedAt := "T",
          manualOverride := some true, reviewedBy := some rv }) ∧
      u.updatedAt = some "T" ∧
      (storeSet [("EXP-C9", c9Pending)] "EXP-C9" u).lookup "EXP-C9" = some u :=
  c9_manual_decision_cases.2.2.2.2 [("EXP-C9", c9Pending)] "EXP-C9"
    { decision := "APPROVED", reason := "verified with receipts",
      reviewedBy := some "manager1" } "T" c9Pending (Or.inl rfl) (by decide)
    rfl (by decide)

/-! ## Decision-handler invariant (C10) -/

/-- C10: the record the Decision handler hands to the conditional insert
satisfies status = outcome string of the rendered decision and updatedAt =
decidedAt; a storage fault only adds a storageError annotation, leaving
decision, status, and the store unchanged. -/
theorem c10_decision_handler_invariant (now : String) (e : ExpenseEvent)
    (st : Store) :
    (decisionHandler none now e st).1.status =
      some (outcomeToString (makeDecision e).1) ∧
    (decisionHandler none now e st).1.decision =
      some ⟨(makeDecision e).1, (makeDecision e).2, now, none, none⟩ ∧
    (decisionHandler none now e st).1.updatedAt = some now ∧
    (decisionHandler none now e st).2 =
      (storeExpenseDecision st (decisionHandler none now e st).1).2 ∧
    (∀ m, decisionHandler (some m) now e st =
      ({ (decisionHandler none now e st).1 with storageError := some m }, st)) :=
  ⟨rfl, rfl, rfl, rfl, fun _ => rfl⟩

end ExpenseApproval
